import Mathlib

/-!
Verification of the `website_ai_chat_min` front-end widgets.

The repository ships a family of near-duplicate chat-bubble widgets
(two scripts inside `static/src/js/ai_chat.js` and one or two per
`part_00x` file).  This file shallow-embeds the state-manipulating
parts of every widget variant — the `sendMsg` flow, the localStorage
chat state (`pushUserMessageToState`, `pushModelMessageToState`,
`saveChatState`, `loadChatState`, `buildPromptWithHistory`), the JSON
salvage helpers of `part_009` (`extractJsonSafe`, `stripFences`,
`findBalancedObject`), `renderModels` and the JSON-RPC `unwrap`
helpers — and proves or refutes the specification claims about them.

JavaScript values are modelled by the inductive `J`; the platform
builtin `JSON.parse` is modelled by the executable `jsonParse`
(restricted to integer numerals, the only numbers appearing in this
development), and theorems that only need an abstract parser take it
as a parameter.
-/

set_option maxRecDepth 10000

/-- Model of a JavaScript / JSON value.  `undefined` is not modelled
separately: a missing object field reads back as `J.null`, which has
the same truthiness as `undefined` (the only way the embedded code
observes it besides the `"result" in x` key-presence test, which is
modelled by `hasKey`).  Numbers are restricted to integers, the only
numerals appearing in the embedded code and data. -/
inductive J where
  | null : J
  | bool : Bool → J
  | num : Int → J
  | str : String → J
  | arr : List J → J
  | obj : List (String × J) → J

/-- JavaScript truthiness of a value (`!!x`). -/
def jsTruthy : J → Bool
  | .null => false
  | .bool b => b
  | .num n => n != 0
  | .str s => s ≠ ""
  | .arr _ => true
  | .obj _ => true

/-- Whether `typeof x === "object"` holds (true for objects, arrays and
`null` in JavaScript). -/
def typeofIsObject : J → Bool
  | .null => true
  | .arr _ => true
  | .obj _ => true
  | _ => false

/-- First binding of a key in an object's field list. -/
def lookupField (k : String) : List (String × J) → Option J
  | [] => none
  | (k', v) :: rest => if k' = k then some v else lookupField k rest

/-- `k in x` (key presence) for objects; `false` on every other value. -/
def hasKey (x : J) (k : String) : Bool :=
  match x with
  | .obj fs => (lookupField k fs).isSome
  | _ => false

/-- Field read `x.k` as an `Option`. -/
def jgetOpt (x : J) (k : String) : Option J :=
  match x with
  | .obj fs => lookupField k fs
  | _ => none

/-- Field read `x.k`; a missing field reads as `J.null` (standing for
`undefined`, which has the same truthiness). -/
def jgetJ (x : J) (k : String) : J :=
  (jgetOpt x k).getD J.null

/-- JavaScript `a || b`. -/
def jOr (a b : J) : J := if jsTruthy a then a else b

/-- JavaScript `a && b`. -/
def jAnd (a b : J) : J := if jsTruthy a then b else a

/-- JavaScript `a || b` on strings (where `""` is the only falsy string). -/
def sOr (a b : String) : String := if a = "" then b else a

/-- `String(x)` coercion, with fuel for the nested array case. -/
def jsDisplayF : Nat → J → String
  | 0, _ => ""
  | _ + 1, .null => "null"
  | _ + 1, .bool true => "true"
  | _ + 1, .bool false => "false"
  | _ + 1, .num n => toString n
  | _ + 1, .str s => s
  | fuel + 1, .arr xs => String.intercalate "," (xs.map (jsDisplayF fuel))
  | _ + 1, .obj _ => "[object Object]"

/-- `String(x)` coercion (fuel instantiated; the embedded code never
builds arrays nested deeper than the fuel). -/
def jsDisplay (x : J) : String := jsDisplayF 100 x

/-! ### String primitives

All string manipulation is done over `List Char` with bespoke helpers so
that concrete evaluations reduce well in the kernel. -/

/-- Whitespace recognised by the embedded code's `trim` / JSON parsing
(space, tab, newline, carriage return; the exotic Unicode spaces JS also
trims never occur in this development). -/
def isJsWs (c : Char) : Bool :=
  c = ' ' || c = '\t' || c = '\n' || c = '\r'

/-- Drop leading whitespace from a character list. -/
def dropWsLeft : List Char → List Char
  | [] => []
  | c :: rest => if isJsWs c then dropWsLeft rest else c :: rest

/-- `String.prototype.trim`. -/
def jsTrim (s : String) : String :=
  String.mk (dropWsLeft ((dropWsLeft s.data.reverse).reverse))

/-- `s.startsWith(p)`. -/
def jsStartsWith (s p : String) : Bool := p.data.isPrefixOf s.data

/-- Join a list of strings with a separator (`Array.prototype.join`). -/
def joinSep (sep : String) : List String → String
  | [] => ""
  | [x] => x
  | x :: xs => x ++ sep ++ joinSep sep xs

/-- Substring test on character lists. -/
def listContainsSub (sub : List Char) : List Char → Bool
  | [] => sub.isEmpty
  | c :: rest => sub.isPrefixOf (c :: rest) || listContainsSub sub rest

/-- `s.includes(sub)`. -/
def strContainsSub (sub s : String) : Bool := listContainsSub sub.data s.data

/-- The double-quote character. -/
def quoteChar : Char := Char.ofNat 34

/-- The backslash character. -/
def backslashChar : Char := Char.ofNat 92

/-- The opening-brace character. -/
def braceL : Char := Char.ofNat 123

/-- The closing-brace character. -/
def braceR : Char := Char.ofNat 125

/-! ### A model of the platform builtin `JSON.parse`

The widgets call the ECMAScript builtin `JSON.parse`, which is not part
of this repository; `jsonParse` models it faithfully on the JSON
fragment exercised here (strings with the standard escapes, integer
numerals, arrays, objects, literals, whitespace).  Non-integer numerals
are rejected by the model and never appear in any input used below.
Theorems that do not depend on the concrete parser quantify over an
arbitrary `parse` function instead. -/

/-- Hexadecimal digit value. -/
def hexVal (c : Char) : Option Nat :=
  if '0' ≤ c ∧ c ≤ '9' then some (c.toNat - '0'.toNat)
  else if 'a' ≤ c ∧ c ≤ 'f' then some (c.toNat - 'a'.toNat + 10)
  else if 'A' ≤ c ∧ c ≤ 'F' then some (c.toNat - 'A'.toNat + 10)
  else none

/-- Parse the body of a JSON string after the opening quote, returning
the decoded characters and the remaining input. -/
def parseStringBody : Nat → List Char → Option (List Char × List Char)
  | 0, _ => none
  | _ + 1, [] => none
  | fuel + 1, c :: rest =>
    if c = quoteChar then some ([], rest)
    else if c = backslashChar then
      match rest with
      | [] => none
      | e :: rest2 =>
        let cont (ch : Char) (r : List Char) : Option (List Char × List Char) :=
          (parseStringBody fuel r).map (fun p => (ch :: p.1, p.2))
        if e = quoteChar then cont quoteChar rest2
        else if e = backslashChar then cont backslashChar rest2
        else if e = '/' then cont '/' rest2
        else if e = 'b' then cont (Char.ofNat 8) rest2
        else if e = 'f' then cont (Char.ofNat 12) rest2
        else if e = 'n' then cont (Char.ofNat 10) rest2
        else if e = 'r' then cont (Char.ofNat 13) rest2
        else if e = 't' then cont (Char.ofNat 9) rest2
        else if e = 'u' then
          match rest2 with
          | h1 :: h2 :: h3 :: h4 :: rest3 =>
            match hexVal h1, hexVal h2, hexVal h3, hexVal h4 with
            | some a, some b, some c2, some d =>
              cont (Char.ofNat (((a * 16 + b) * 16 + c2) * 16 + d)) rest3
            | _, _, _, _ => none
          | _ => none
        else none
    else if c.toNat < 32 then none
    else (parseStringBody fuel rest).map (fun p => (c :: p.1, p.2))

/-- Consume a run of decimal digits. -/
def takeDigits : List Char → (List Char × List Char)
  | [] => ([], [])
  | c :: rest =>
    if c.isDigit then
      let p := takeDigits rest
      (c :: p.1, p.2)
    else ([], c :: rest)

/-- Numeric value of a digit run. -/
def digitsToNat : List Char → Nat
  | [] => 0
  | c :: rest => digitsToNat rest + (c.toNat - '0'.toNat) * 10 ^ rest.length

/-- Parse a JSON integer numeral (rejecting leading zeros and, as a
documented model restriction, fraction/exponent parts). -/
def parseJsonInt (cs : List Char) : Option (Int × List Char) :=
  let (neg, cs1) := match cs with
    | '-' :: rest => (true, rest)
    | _ => (false, cs)
  match takeDigits cs1 with
  | ([], _) => none
  | (d :: ds, rest) =>
    if d = '0' ∧ ds ≠ [] then none
    else
      match rest with
      | '.' :: _ => none
      | 'e' :: _ => none
      | 'E' :: _ => none
      | _ =>
        let n : Int := Int.ofNat (digitsToNat (d :: ds))
        some (if neg then -n else n, rest)

mutual

/-- Parse one JSON value (fuel-indexed). -/
def parseValue : Nat → List Char → Option (J × List Char)
  | 0, _ => none
  | fuel + 1, cs =>
    match dropWsLeft cs with
    | [] => none
    | c :: rest =>
      if c = quoteChar then
        (parseStringBody (rest.length + 1) rest).map
          (fun p => (J.str (String.mk p.1), p.2))
      else if c = braceL then
        match dropWsLeft rest with
        | r :: rest2 =>
          if r = braceR then some (J.obj [], rest2)
          else (parseObjectFields fuel (r :: rest2)).map (fun p => (J.obj p.1, p.2))
        | [] => none
      else if c = '[' then
        match dropWsLeft rest with
        | ']' :: rest2 => some (J.arr [], rest2)
        | other => (parseArrayElems fuel other).map (fun p => (J.arr p.1, p.2))
      else if ['n', 'u', 'l', 'l'].isPrefixOf (c :: rest) then
        some (J.null, (c :: rest).drop 4)
      else if ['t', 'r', 'u', 'e'].isPrefixOf (c :: rest) then
        some (J.bool true, (c :: rest).drop 4)
      else if ['f', 'a', 'l', 's', 'e'].isPrefixOf (c :: rest) then
        some (J.bool false, (c :: rest).drop 5)
      else
        (parseJsonInt (c :: rest)).map (fun p => (J.num p.1, p.2))

/-- Parse the comma-separated elements of a non-empty JSON array (fuel-indexed). -/
def parseArrayElems : Nat → List Char → Option (List J × List Char)
  | 0, _ => none
  | fuel + 1, cs =>
    match parseValue fuel cs with
    | none => none
    | some (v, rest) =>
      match dropWsLeft rest with
      | ',' :: rest2 =>
        (parseArrayElems fuel rest2).map (fun p => (v :: p.1, p.2))
      | ']' :: rest2 => some ([v], rest2)
      | _ => none

/-- Parse the members of a non-empty JSON object (fuel-indexed). -/
def parseObjectFields : Nat → List Char → Option (List (String × J) × List Char)
  | 0, _ => none
  | fuel + 1, cs =>
    match dropWsLeft cs with
    | c :: rest =>
      if c = quoteChar then
        match parseStringBody (rest.length + 1) rest with
        | none => none
        | some (key, rest2) =>
          match dropWsLeft rest2 with
          | ':' :: rest3 =>
            match parseValue fuel rest3 with
            | none => none
            | some (v, rest4) =>
              match dropWsLeft rest4 with
              | ',' :: rest5 =>
                (parseObjectFields fuel rest5).map
                  (fun p => ((String.mk key, v) :: p.1, p.2))
              | r :: rest5 =>
                if r = braceR then some ([(String.mk key, v)], rest5) else none
              | [] => none
          | _ => none
      else none
    | [] => none

end

/-- Model of `JSON.parse`: parse a complete JSON document, requiring
only whitespace after the value. -/
def jsonParse (s : String) : Option J :=
  match parseValue (2 * s.data.length + 4) s.data with
  | some (v, rest) => if dropWsLeft rest = [] then some v else none
  | none => none

/-! ### A model of the platform builtin `JSON.stringify`

Needed only to instantiate the round-trip hypotheses of the storage
theorems at concrete states. -/

/-- Escape one character as inside a JSON string literal. -/
def jsonEscapeChar (c : Char) : String :=
  if c = quoteChar then String.mk [backslashChar, quoteChar]
  else if c = backslashChar then String.mk [backslashChar, backslashChar]
  else if c = Char.ofNat 10 then String.mk [backslashChar, 'n']
  else if c = Char.ofNat 13 then String.mk [backslashChar, 'r']
  else if c = Char.ofNat 9 then String.mk [backslashChar, 't']
  else if c = Char.ofNat 8 then String.mk [backslashChar, 'b']
  else if c = Char.ofNat 12 then String.mk [backslashChar, 'f']
  else if c.toNat < 32 then
    let d1 := c.toNat / 16
    let d2 := c.toNat % 16
    let hex (d : Nat) : Char := if d < 10 then Char.ofNat ('0'.toNat + d) else Char.ofNat ('a'.toNat + d - 10)
    String.mk [backslashChar, 'u', '0', '0', hex d1, hex d2]
  else String.mk [c]

/-- Serialise a string as a JSON string literal. -/
def jsonQuote (s : String) : String :=
  String.mk [quoteChar] ++ String.join (s.data.map jsonEscapeChar) ++ String.mk [quoteChar]

/-- `JSON.stringify`, fuel-indexed over nesting depth. -/
def jsonStringifyF : Nat → J → String
  | 0, _ => ""
  | _ + 1, .null => "null"
  | _ + 1, .bool true => "true"
  | _ + 1, .bool false => "false"
  | _ + 1, .num n => toString n
  | _ + 1, .str s => jsonQuote s
  | fuel + 1, .arr xs =>
    "[" ++ joinSep "," (xs.map (jsonStringifyF fuel)) ++ "]"
  | fuel + 1, .obj fs =>
    String.mk [braceL]
      ++ joinSep "," (fs.map (fun kv => jsonQuote kv.1 ++ ":" ++ jsonStringifyF fuel kv.2))
      ++ String.mk [braceR]

/-- `JSON.stringify` (fuel instantiated; ample for every value used here). -/
def jsonStringify (v : J) : String := jsonStringifyF 100 v

/-- `String.prototype.split(sep)`, by recursion on the input with fuel. -/
def splitOnAux (sep : List Char) : Nat → List Char → List Char → List (List Char)
  | 0, acc, _ => [acc.reverse]
  | fuel + 1, acc, cs =>
    if sep ≠ [] ∧ sep.isPrefixOf cs then
      acc.reverse :: splitOnAux sep fuel [] (cs.drop sep.length)
    else
      match cs with
      | [] => [acc.reverse]
      | c :: rest => splitOnAux sep fuel (c :: acc) rest

/-- `s.split(sep)` (for non-empty separators, the only use here). -/
def jsSplit (sep s : String) : List String :=
  (splitOnAux sep.data (s.data.length + 1) [] s.data).map String.mk

namespace Part009A

/-!  Embeddings of the first script in `src/unnamed/part_009` (the
"robust JSON salvage" widget). -/

/-- `stripFences` from `part_009` lines 142-149.  Note the faithful
transcription of `s.split("\n", 1)[1]`: a JavaScript `split` with limit
`1` returns an array of at most one element, so index `1` is always
`undefined` and the `|| ""` fallback fires whenever the input starts
with a code fence. -/
def stripFences (s : String) : String :=
  let s1 := jsTrim s
  let s2 :=
    if jsStartsWith s1 "```" then
      let a := ((jsSplit "\n" s1).take 1).get? 1 |>.getD ""
      if strContainsSub "```" a then joinSep "```" ((jsSplit "```" a).dropLast)
      else a
    else s1
  jsTrim s2

/-- `s.indexOf("{")` viewed as the suffix of `s` starting at the first
opening brace (`none` when there is no brace). -/
def dropToBrace : List Char → Option (List Char)
  | [] => none
  | c :: rest => if c = braceL then some (c :: rest) else dropToBrace rest

/-- The depth-scanning loop of `findBalancedObject`: `acc` is the
scanned prefix, `depth` the current brace depth; the slice is returned
as soon as the depth returns to zero. -/
def fbLoop : List Char → Int → List Char → Option String
  | [], _, _ => none
  | c :: rest, depth, acc =>
    if c = braceL then fbLoop rest (depth + 1) (acc ++ [c])
    else if c = braceR then
      if depth - 1 = 0 then some (String.mk (acc ++ [c]))
      else fbLoop rest (depth - 1) (acc ++ [c])
    else fbLoop rest depth (acc ++ [c])

/-- `findBalancedObject` from `part_009` lines 151-165. -/
def findBalancedObject (s : String) : Option String :=
  match dropToBrace s.data with
  | none => none
  | some suf => fbLoop suf 0 []

/-- `extractJsonSafe` from `part_009` lines 126-140, parameterised by the
platform's `JSON.parse` (a thrown parse error is modelled by `none`). -/
def extractJsonSafe (parse : String → Option J) (s : String) : Option J :=
  if s = "" then none
  else
    match parse s with
    | some v => some v
    | none =>
      let stripped := stripFences s
      match (if stripped = "" then none else parse stripped) with
      | some v => some v
      | none =>
        match findBalancedObject s with
        | none => none
        | some inner => parse inner

/-- Case-insensitive literal prefix match, returning the rest of the
input on success. -/
def ciPrefix : List Char → List Char → Option (List Char)
  | [], cs => some cs
  | _ :: _, [] => none
  | p :: ps, c :: cs => if p.toLower = c.toLower then ciPrefix ps cs else none

/-- Characters before the first double quote (`none` when there is no
closing quote, in which case the lazy regex capture cannot complete). -/
def takeUntilQuote : List Char → Option (List Char)
  | [] => none
  | c :: rest =>
    if c = quoteChar then some []
    else (takeUntilQuote rest).map (fun l => c :: l)

/-- The scan of `looseGet`'s regex `"key"\s*:\s*"(.*?)"` with flags
`is`: try a match at each position, advancing one character on failure. -/
def looseGetAux (pat : List Char) : Nat → List Char → Option (List Char)
  | 0, _ => none
  | fuel + 1, cs =>
    let tryHere : Option (List Char) :=
      match ciPrefix pat cs with
      | none => none
      | some rest =>
        match dropWsLeft rest with
        | ':' :: rest2 =>
          match dropWsLeft rest2 with
          | q :: rest3 => if q = quoteChar then takeUntilQuote rest3 else none
          | [] => none
        | _ => none
    match tryHere with
    | some cap => some cap
    | none =>
      match cs with
      | [] => none
      | _ :: t => looseGetAux pat fuel t

/-- `looseGet` from `part_009` lines 185-189 (the capture has carriage
returns removed, and a failed match yields `none`). -/
def looseGet (src key : String) : Option String :=
  (looseGetAux ((quoteChar :: key.data) ++ [quoteChar]) (src.data.length + 1) src.data).map
    (fun cap => String.mk (cap.filter (fun c => c ≠ Char.ofNat 13)))

end Part009A

/-! ### Persisted chat state (`part_004` / second script of `part_009`)

The persisted blob is `{version, model, messages[], created, updated}`;
the push/truncate/prompt functions below only manipulate the `messages`
array, so they are modelled over `List Msg` (an absent or invalid
`chatState` is `none`).  The `updated`/`model` bookkeeping fields are
handled at the `J` level by `saveChatState`/`loadChatState`. -/

/-- One entry of the persisted `messages` array.  The `typeof content
!== "string"` guards in the source never fire in this model, where
`content` is a string by construction. -/
structure Msg where
  role : String
  content : String
  ts : Nat
deriving DecidableEq, Repr

/-- The shared push step: `messages.push(entry)` followed by
`if (messages.length > 100) messages = messages.slice(-100)`. -/
def pushCapped (m : Msg) (msgs : List Msg) : List Msg :=
  let l := msgs ++ [m]
  if 100 < l.length then l.drop (l.length - 100) else l

namespace Part004

/-- `pushUserMessageToState` from `part_004` lines 110-135: a missing
`chatState` (or non-array `messages`) is reinitialised to an empty
list before the capped push. -/
def pushUserMessageToState (text : String) (ts : Nat) (st : Option (List Msg)) : List Msg :=
  pushCapped ⟨"user", sOr text "", ts⟩ (st.getD [])

/-- `pushModelMessageToState` from `part_004` lines 137-160. -/
def pushModelMessageToState (text : String) (ts : Nat) (st : Option (List Msg)) : List Msg :=
  pushCapped ⟨"model", sOr text "", ts⟩ (st.getD [])

/-- `buildPromptWithHistory` from `part_004` lines 162-180
(`WAICM_MAX_HISTORY_MESSAGES = 6`). -/
def buildPromptWithHistory (st : Option (List Msg)) (question : String) : String :=
  let q := jsTrim question
  if q = "" then ""
  else
    match st with
    | none => q
    | some msgs =>
      if msgs.length = 0 then q
      else
        let recent := msgs.drop (msgs.length - 6)
        let lines := recent.map
          (fun m => (if m.role = "user" then "User: " else "Assistant: ") ++ m.content)
        joinSep "\n" (lines ++ ["", "User: " ++ q, "Assistant:"])

end Part004

namespace Part009B

/-- `pushUserMessageToState` from the second script of `part_009`
(lines 425-437): a no-op when there is no chat state. -/
def pushUserMessageToState (text : String) (ts : Nat) (st : Option (List Msg)) : Option (List Msg) :=
  match st with
  | none => none
  | some msgs => some (pushCapped ⟨"user", sOr text "", ts⟩ msgs)

/-- `pushModelMessageToState` from the second script of `part_009`
(lines 439-451): the bot role is `"assistant"` in this variant. -/
def pushModelMessageToState (text : String) (ts : Nat) (st : Option (List Msg)) : Option (List Msg) :=
  match st with
  | none => none
  | some msgs => some (pushCapped ⟨"assistant", sOr text "", ts⟩ msgs)

/-- `buildPromptWithHistory` from the second script of `part_009`
(lines 453-471), textually identical to the `part_004` version. -/
def buildPromptWithHistory (st : Option (List Msg)) (question : String) : String :=
  let q := jsTrim question
  if q = "" then ""
  else
    match st with
    | none => q
    | some msgs =>
      if msgs.length = 0 then q
      else
        let recent := msgs.drop (msgs.length - 6)
        let lines := recent.map
          (fun m => (if m.role = "user" then "User: " else "Assistant: ") ++ m.content)
        joinSep "\n" (lines ++ ["", "User: " ++ q, "Assistant:"])

end Part009B

/-! ### localStorage model and `saveChatState` / `loadChatState` -/

/-- The browser's localStorage, as an association list. -/
def Store := List (String × String)

/-- `localStorage.getItem`. -/
def storeGet (store : Store) (k : String) : Option String :=
  match store with
  | [] => none
  | (k', v) :: rest => if k' = k then some v else storeGet rest k

/-- Replace the first binding of a key, or append it. -/
def setEntry (k v : String) : List (String × String) → List (String × String)
  | [] => [(k, v)]
  | (k', v') :: rest => if k' = k then (k, v) :: rest else (k', v') :: setEntry k v rest

/-- `localStorage.setItem`. -/
def storeSet (store : Store) (k v : String) : Store := setEntry k v store

/-- Assign an object field (`x.k = v`): replace the first binding or
append; a non-object is left unchanged. -/
def setFieldList (k : String) (v : J) : List (String × J) → List (String × J)
  | [] => [(k, v)]
  | (k', v') :: rest => if k' = k then (k, v) :: rest else (k', v') :: setFieldList k v rest

/-- Assign an object field at the `J` level. -/
def jsetField (x : J) (k : String) (v : J) : J :=
  match x with
  | .obj fs => .obj (setFieldList k v fs)
  | other => other

namespace Part004

/-- `saveChatState` from `part_004` lines 51-61, parameterised by the
platform's `JSON.stringify`: sets `chatState.updated = Date.now()` and
stores the serialisation under the key.  Returns the updated blob and
store.  (The `!window.localStorage || !storageKey || !chatState` early
return is outside this model, which is invoked with all three present.) -/
def saveChatState (stringify : J → String) (store : Store) (key : String) (blob : J) (now : Nat) :
    J × Store :=
  let blob' := jsetField blob "updated" (J.num now)
  (blob', storeSet store key (stringify blob'))

/-- The fresh state installed by `resetChat` / `loadChatState`:
`{version: 1, model: selectedModelName || null, messages: [], created:
now, updated: now}`. -/
def freshChatState (model : J) (now : Nat) : J :=
  J.obj [("version", J.num 1), ("model", model), ("messages", J.arr []),
         ("created", J.num now), ("updated", J.num now)]

/-- The validation test of `loadChatState` line 95:
`!(!parsed || parsed.version !== 1 || !Array.isArray(parsed.messages))`. -/
def isValidChatState (p : J) : Bool :=
  jsTruthy p &&
    (match jgetJ p "version" with
     | .num n => n == 1
     | _ => false) &&
    (match jgetJ p "messages" with
     | .arr _ => true
     | _ => false)

/-- `loadChatState` from `part_004` lines 77-108, parameterised by the
platform's `JSON.parse` and `JSON.stringify` (a thrown parse error is
modelled by `none`; the raw-item truthiness guard `if (raw)` is the
emptiness test).  Returns the installed chat state and the resulting
store (an invalid or missing blob is replaced by a fresh state, which
is saved back). -/
def loadChatState (parse : String → Option J) (stringify : J → String)
    (store : Store) (key : String) (model : J) (now : Nat) : J × Store :=
  let parsedOpt : Option J :=
    match storeGet store key with
    | none => none
    | some raw => if raw = "" then none else parse raw
  match parsedOpt with
  | some p =>
    if isValidChatState p then (p, store)
    else saveChatState stringify store key (freshChatState model now) now
  | none => saveChatState stringify store key (freshChatState model now) now

end Part004

/-! ### `renderModels` (`ai_chat.js` first script, and `part_004`) -/

/-- The observable outcome of `renderModels`: the models bar's
`style.display` and the resulting `selectedModelName` (a JS value:
a string or `null`).  The DOM chips/labels built alongside are not
state and are elided. -/
structure RenderOut where
  display : String
  selected : J

namespace AiChatA

/-- `renderModels` from `ai_chat.js` lines 218-269 (chip list):
`selectedModelName = defaultModel || (models[0] && models[0].model_name) || null`. -/
def renderModels (models : J) (defaultModel : J) : RenderOut :=
  match models with
  | .arr (m0 :: _) =>
    { display := "flex",
      selected := jOr defaultModel (jOr (jAnd m0 (jgetJ m0 "model_name")) J.null) }
  | _ => { display := "none", selected := J.null }

end AiChatA

/-- The `<option>` values built by the `part_004` dropdown loop:
models without a truthy `model_name` are skipped, and an option value
is a DOM string. -/
def optionValues (models : List J) : List String :=
  models.filterMap
    (fun m =>
      if jsTruthy m && jsTruthy (jgetJ m "model_name") then some (jsDisplay (jgetJ m "model_name"))
      else none)

namespace Part004

/-- `renderModels` from `part_004` lines 484-550 (dropdown): after the
same default choice as the chip variant, the selection is re-aligned
with the actual `<option>` values — if the chosen name matches no
option, the first option (or `null` when there is none) wins. -/
def renderModels (models : J) (defaultModel : J) : RenderOut :=
  match models with
  | .arr (m0 :: rest) =>
    let opts := optionValues (m0 :: rest)
    let sel0 := jOr defaultModel (jOr (jAnd m0 (jgetJ m0 "model_name")) J.null)
    let selected :=
      if jsTruthy sel0 &&
          (match sel0 with
           | .str s => opts.contains s
           | _ => false) then sel0
      else
        match opts with
        | o :: _ => J.str o
        | [] => J.null
    { display := "flex", selected := selected }
  | _ => { display := "none", selected := J.null }

end Part004

/-! ### The JSON-RPC envelope `unwrap` helpers

Nine scripts define the one-liner
`(x) => (x && typeof x === "object" && "result" in x ? x.result : x)`;
the first script of `part_006` instead only unwraps a *truthy*
`x.result`. -/

namespace AiChatA

/-- `unwrap` from `ai_chat.js` line 8. -/
def unwrap (x : J) : J :=
  if jsTruthy x && typeofIsObject x && hasKey x "result" then jgetJ x "result" else x

end AiChatA

namespace AiChatB

/-- `unwrap` from `ai_chat.js` line 395 (second script). -/
def unwrap (x : J) : J :=
  if jsTruthy x && typeofIsObject x && hasKey x "result" then jgetJ x "result" else x

end AiChatB

namespace Part001A

/-- `unwrap` from `part_001` line 4 (first script). -/
def unwrap (x : J) : J :=
  if jsTruthy x && typeofIsObject x && hasKey x "result" then jgetJ x "result" else x

/-- `esc` from `part_001` line 6: HTML-escape `& < > " '`. -/
def escChar (c : Char) : String :=
  if c = '&' then "&amp;"
  else if c = '<' then "&lt;"
  else if c = '>' then "&gt;"
  else if c = quoteChar then "&quot;"
  else if c = Char.ofNat 39 then "&#39;"
  else String.mk [c]

/-- `esc` from `part_001` line 6 (string level). -/
def esc (s : String) : String := String.join (s.data.map escChar)

end Part001A

namespace Part001B

/-- `unwrap` from `part_001` line 331 (second script). -/
def unwrap (x : J) : J :=
  if jsTruthy x && typeofIsObject x && hasKey x "result" then jgetJ x "result" else x

end Part001B

namespace Part004

/-- `unwrap` from `part_004` line 19. -/
def unwrap (x : J) : J :=
  if jsTruthy x && typeofIsObject x && hasKey x "result" then jgetJ x "result" else x

end Part004

namespace Part005

/-- `unwrap` from `part_005` line 6. -/
def unwrap (x : J) : J :=
  if jsTruthy x && typeofIsObject x && hasKey x "result" then jgetJ x "result" else x

end Part005

namespace Part006A

/-- `unwrap` from `part_006` lines 10-14 (first script): returns
`x.result` only when it is *truthy*, otherwise the envelope itself. -/
def unwrap (x : J) : J :=
  if !(jsTruthy x) || !(typeofIsObject x) then x
  else if hasKey x "result" && jsTruthy (jgetJ x "result") then jgetJ x "result"
  else x

end Part006A

namespace Part007

/-- `unwrap` from `part_007` line 5. -/
def unwrap (x : J) : J :=
  if jsTruthy x && typeofIsObject x && hasKey x "result" then jgetJ x "result" else x

end Part007

namespace Part008

/-- `unwrap` from `part_008` line 5. -/
def unwrap (x : J) : J :=
  if jsTruthy x && typeofIsObject x && hasKey x "result" then jgetJ x "result" else x

end Part008

namespace Part009B

/-- `unwrap` from `part_009` line 326 (second script). -/
def unwrap (x : J) : J :=
  if jsTruthy x && typeofIsObject x && hasKey x "result" then jgetJ x "result" else x

end Part009B

/-! ### Widget state and the send flow

Each widget variant's `sendMsg` is embedded as a pure step function
from the observable widget state and the outcome of the (single)
`fetch` to `/ai_chat/send`.  A rendered message row records who sent
it and through which DOM sink its content goes; for rich bot replies
the row stores the string handed to the variant's renderer and tags
the sink (`rawHtml` = unescaped `innerHTML`, `mdHtml` = `innerHTML`
via the variant's escaping markdown-lite renderer, `domText` / `text`
= `textContent`-built DOM).  Sub-elements of a single reply row
(title/summary blocks, citation chips, suggestion buttons — all
`textContent`-inserted) are elided. -/

/-- The DOM sink through which a message row's content is inserted. -/
inductive IMode where
  | text : IMode
  | rawHtml : IMode
  | mdHtml : IMode
  | domText : IMode
deriving DecidableEq, Repr

/-- A rendered message row in the chat body. -/
structure RMsg where
  who : String
  mode : IMode
  content : String
deriving DecidableEq, Repr

/-- Observable widget state.  `requests` counts issued `/ai_chat/send`
requests; `now` models `Date.now()`; `bodyDetached` records the
`part_006` quirk of removing the message container; the remaining
fields are the DOM/flag state the widgets manipulate. -/
structure WState where
  bodyMsgs : List RMsg
  panelHidden : Bool
  panelMinimal : Bool
  bubbleDisplay : String
  inputValue : String
  sendDisabled : Bool
  inputDisabled : Bool
  busy : Bool
  sending : Bool
  selectedModel : Option String
  chatMessages : Option (List Msg)
  requests : Nat
  now : Nat
  bodyDetached : Bool
deriving DecidableEq, Repr

/-- Outcome of the `fetch` to `/ai_chat/send`: either the promise
rejects (network failure / timeout abort), or a response arrives with
an HTTP status, a content-type flag and the JSON parse of its body
(`none` when the body is not parseable JSON). -/
inductive FetchOutcome where
  | throws : FetchOutcome
  | resp : Nat → Bool → Option J → FetchOutcome

/-- `Response.ok`: status in the 2xx range. -/
def respOk (status : Nat) : Bool := 200 ≤ status && status < 300

/-- Remove the trailing `…` typing indicator if present
(`if (msgs.lastChild && msgs.lastChild.textContent === '…') removeChild`). -/
def dropLastIfDots (l : List RMsg) : List RMsg :=
  match l.getLast? with
  | some r => if r.content = "…" then l.dropLast else l
  | none => l

/-- Remove the trailing row if it is a bot row (`part_009` second
script: remove the `Thinking...` placeholder when the last child has
the bot class). -/
def dropLastIfBot (l : List RMsg) : List RMsg :=
  match l.getLast? with
  | some r => if r.who = "bot" then l.dropLast else l
  | none => l

/-- Replace the content of the last row (`replaceTyping`: the typing
bubble is the last row in every reachable flow). -/
def replaceLastContent (l : List RMsg) (s : String) : List RMsg :=
  match l.getLast? with
  | some r => l.dropLast ++ [{ r with content := s }]
  | none => l

/-- `Array.isArray`. -/
def isArrJ : J → Bool
  | .arr _ => true
  | _ => false

/-- `s.slice(0, n)` on strings. -/
def strTake (n : Nat) (s : String) : String := String.mk (s.data.take n)

namespace AiChatA

/-- `sendMsg` from the first script of `ai_chat.js` (lines 295-347).
The trimmed input guards the whole flow; on 401/403 the panel is
hidden and the bubble display set to `"none"` with no bot row; on a
successful reply `appendBotUI` assigns the raw answer string to
`md.innerHTML` (sink `rawHtml`); a thrown fetch appends the
`"Network error."` row; the send button is re-enabled in `finally`. -/
def sendMsg (st : WState) (f : FetchOutcome) : WState :=
  let q := jsTrim (sOr st.inputValue "")
  if q = "" then st
  else
    let st1 : WState := { st with
      bodyMsgs := st.bodyMsgs ++ [⟨"user", .text, q⟩],
      inputValue := "", sendDisabled := true, requests := st.requests + 1 }
    match f with
    | .throws =>
      { st1 with bodyMsgs := st1.bodyMsgs ++ [⟨"bot", .text, "Network error."⟩],
                 sendDisabled := false }
    | .resp status ctJson parsed =>
      let dataOpt : Option J := if ctJson then parsed else none
      if !(respOk status) && (status == 401 || status == 403) then
        { st1 with panelHidden := true, bubbleDisplay := "none", sendDisabled := false }
      else
        let raw := unwrap (jOr (dataOpt.getD J.null) (J.obj []))
        if respOk status && jsTruthy raw && jsTruthy (jgetJ raw "ok") then
          let uiJ := jgetJ raw "ui"
          let uiObj := if jsTruthy uiJ && typeofIsObject uiJ then uiJ else J.obj []
          let answerText := jOr (jgetJ uiObj "answer_md") (jOr (jgetJ raw "reply") (J.str ""))
          let answerStr := jsDisplay (jOr answerText (J.str ""))
          { st1 with bodyMsgs := st1.bodyMsgs ++ [⟨"bot", .rawHtml, sOr answerStr ""⟩],
                     sendDisabled := false }
        else
          { st1 with
            bodyMsgs := st1.bodyMsgs ++
              [⟨"bot", .text, jsDisplay (jOr (jAnd raw (jgetJ raw "reply")) (J.str "Network error."))⟩],
            sendDisabled := false }

end AiChatA

namespace AiChatB

/-- `sendMsg` from the second script of `ai_chat.js` (lines 470-493):
no 401/403 branch and no send-button disabling; the bot reply and all
errors go through `appendMessage` (`textContent`). -/
def sendMsg (st : WState) (f : FetchOutcome) : WState :=
  let q := jsTrim st.inputValue
  if q = "" then st
  else
    let st1 : WState := { st with
      bodyMsgs := st.bodyMsgs ++ [⟨"user", .text, q⟩],
      inputValue := "", requests := st.requests + 1 }
    match f with
    | .throws =>
      { st1 with bodyMsgs := st1.bodyMsgs ++ [⟨"bot", .text, "Network error."⟩] }
    | .resp status _ parsed =>
      let raw := parsed.getD (J.obj [])
      let data := unwrap raw
      if respOk status && jsTruthy data && jsTruthy (jgetJ data "ok") then
        { st1 with bodyMsgs := st1.bodyMsgs ++
            [⟨"bot", .text, jsDisplay (jOr (jgetJ data "reply") (J.str ""))⟩] }
      else
        { st1 with bodyMsgs := st1.bodyMsgs ++
            [⟨"bot", .text, jsDisplay (jOr (jAnd data (jgetJ data "reply")) (J.str "Network error."))⟩] }

end AiChatB

namespace Part001A

/-- `sendMsg` from the first script of `part_001` (lines 222-265).
On 401/403 the panel is hidden and the bubble display set to `"none"`;
a successful reply is rendered through `mdLiteToHtml(cleanAnswerMd(·))`
into `innerHTML` (sink `mdHtml`, an escaping renderer; the row stores
the trimmed answer string handed to it). -/
def sendMsg (st : WState) (f : FetchOutcome) : WState :=
  let q := jsTrim st.inputValue
  if q = "" then st
  else
    let st1 : WState := { st with
      bodyMsgs := st.bodyMsgs ++ [⟨"user", .text, q⟩],
      inputValue := "", sendDisabled := true, requests := st.requests + 1 }
    match f with
    | .throws =>
      { st1 with bodyMsgs := st1.bodyMsgs ++ [⟨"bot", .text, "Network error."⟩],
                 sendDisabled := false }
    | .resp status ctJson parsed =>
      let dataOpt : Option J := if ctJson then parsed else none
      if !(respOk status) && (status == 401 || status == 403) then
        { st1 with panelHidden := true, bubbleDisplay := "none", sendDisabled := false }
      else
        let raw := unwrap (jOr (dataOpt.getD J.null) (J.obj []))
        if respOk status && jsTruthy raw && jsTruthy (jgetJ raw "ok") then
          let uiJ := jgetJ raw "ui"
          let uiObj := if jsTruthy uiJ && typeofIsObject uiJ then uiJ else J.obj []
          let answerText := jOr (jgetJ uiObj "answer_md") (jOr (jgetJ raw "reply") (J.str ""))
          let answerMd := jsTrim (jsDisplay answerText)
          { st1 with bodyMsgs := st1.bodyMsgs ++ [⟨"bot", .mdHtml, answerMd⟩],
                     sendDisabled := false }
        else
          { st1 with
            bodyMsgs := st1.bodyMsgs ++
              [⟨"bot", .text, jsDisplay (jOr (jAnd raw (jgetJ raw "reply")) (J.str "Network error."))⟩],
            sendDisabled := false }

end Part001A

namespace Part001B

/-- The citation chip text `` `${ci.file} p.${ci.page}` ``. -/
def citChip (ci : J) : String :=
  jsDisplay (jgetJ ci "file") ++ " p." ++ jsDisplay (jgetJ ci "page")

/-- `appendBotUI` from the second script of `part_001` (lines 490-541):
one bot row per truthy field, all inserted via `innerText`.  A chip or
suggestion row's text content is the concatenation of its children's
texts. -/
def appendBotUIRows (ui : J) : List RMsg :=
  (if jsTruthy (jgetJ ui "title") then [⟨"bot", .text, jsDisplay (jgetJ ui "title")⟩] else [])
  ++ (if jsTruthy (jgetJ ui "summary") then [⟨"bot", .text, jsDisplay (jgetJ ui "summary")⟩] else [])
  ++ (if jsTruthy (jgetJ ui "answer_md") then [⟨"bot", .text, jsDisplay (jgetJ ui "answer_md")⟩] else [])
  ++ (match jgetJ ui "citations" with
      | .arr (c :: cs) => [⟨"bot", .text, String.join ((c :: cs).map citChip)⟩]
      | _ => [])
  ++ (match jgetJ ui "suggestions" with
      | .arr (s :: ss) => [⟨"bot", .text, String.join ((s :: ss).map jsDisplay)⟩]
      | _ => [])

/-- `sendMsg` from the second script of `part_001` (lines 543-576):
401/403 hides panel and bubble; a structured `ui` reply is rendered by
`appendBotUI` (all `innerText`), a plain reply via `appendMessage`. -/
def sendMsg (st : WState) (f : FetchOutcome) : WState :=
  let q := jsTrim st.inputValue
  if q = "" then st
  else
    let st1 : WState := { st with
      bodyMsgs := st.bodyMsgs ++ [⟨"user", .text, q⟩],
      inputValue := "", sendDisabled := true, requests := st.requests + 1 }
    match f with
    | .throws =>
      { st1 with bodyMsgs := st1.bodyMsgs ++ [⟨"bot", .text, "Network error."⟩],
                 sendDisabled := false }
    | .resp status ctJson parsed =>
      let dataOpt : Option J := if ctJson then parsed else none
      if !(respOk status) && (status == 401 || status == 403) then
        { st1 with panelHidden := true, bubbleDisplay := "none", sendDisabled := false }
      else
        let raw := unwrap (jOr (dataOpt.getD J.null) (J.obj []))
        if respOk status && jsTruthy raw && jsTruthy (jgetJ raw "ok") then
          if jsTruthy (jgetJ raw "ui") then
            { st1 with bodyMsgs := st1.bodyMsgs ++ appendBotUIRows (jgetJ raw "ui"),
                       sendDisabled := false }
          else
            { st1 with
              bodyMsgs := st1.bodyMsgs ++
                [⟨"bot", .text, jsDisplay (jOr (jgetJ raw "reply") (J.str ""))⟩],
              sendDisabled := false }
        else
          { st1 with
            bodyMsgs := st1.bodyMsgs ++
              [⟨"bot", .text, jsDisplay (jOr (jAnd raw (jgetJ raw "reply")) (J.str "Network error."))⟩],
            sendDisabled := false }

end Part001B

namespace Part002

/-- `doSend` from `part_002` (lines 61-77), which talks to the backend
through the JSON-RPC `rpc` helper: a `…` typing row is appended before
the request; `rpc` throws on an unparseable body or a JSON-RPC `error`
member (both land in the catch, which removes the `…` row and appends
`"Network error."`); otherwise `rpc` returns `j.result`.  There is no
status check, no send-button disabling and no hiding. -/
def doSend (st : WState) (f : FetchOutcome) : WState :=
  let v := jsTrim (sOr st.inputValue "")
  if v = "" then st
  else
    let st1 : WState := { st with
      bodyMsgs := st.bodyMsgs ++ [⟨"user", .text, v⟩, ⟨"bot", .text, "…"⟩],
      inputValue := "", requests := st.requests + 1 }
    let catchPath : WState := { st1 with
      bodyMsgs := dropLastIfDots st1.bodyMsgs ++ [⟨"bot", .text, "Network error."⟩] }
    match f with
    | .throws => catchPath
    | .resp _ _ parsed =>
      match parsed with
      | none => catchPath
      | some j =>
        if jsTruthy (jgetJ j "error") then catchPath
        else
          let res := jgetJ j "result"
          if !(jsTruthy res) || !(jsTruthy (jgetJ res "ok")) then
            { st1 with
              bodyMsgs := dropLastIfDots st1.bodyMsgs ++
                [⟨"bot", .text,
                  "Error: " ++ jsDisplay (jOr (jAnd res (jgetJ res "error")) (J.str "unknown"))⟩] }
          else
            { st1 with
              bodyMsgs := dropLastIfDots st1.bodyMsgs ++
                [⟨"bot", .text, jsDisplay (jOr (jgetJ res "reply") (J.str "(no reply)"))⟩] }

end Part002

namespace Part003

/-- `sendMsg` from `part_003` (lines 113-139): no status check, no
hiding, no send-button disabling; an unparseable body makes
`res.json()` throw into the catch. -/
def sendMsg (st : WState) (f : FetchOutcome) : WState :=
  let q := jsTrim st.inputValue
  if q = "" then st
  else
    let st1 : WState := { st with
      bodyMsgs := st.bodyMsgs ++ [⟨"user", .text, q⟩],
      inputValue := "", requests := st.requests + 1 }
    match f with
    | .throws =>
      { st1 with bodyMsgs := st1.bodyMsgs ++ [⟨"bot", .text, "Network error."⟩] }
    | .resp _ _ parsed =>
      match parsed with
      | none =>
        { st1 with bodyMsgs := st1.bodyMsgs ++ [⟨"bot", .text, "Network error."⟩] }
      | some data =>
        if jsTruthy data && jsTruthy (jgetJ data "ok") then
          { st1 with
            bodyMsgs := st1.bodyMsgs ++
              [⟨"bot", .text, jsDisplay (jOr (jgetJ data "reply") (J.str ""))⟩] }
        else
          { st1 with
            bodyMsgs := st1.bodyMsgs ++
              [⟨"bot", .text,
                if jsTruthy data && jsTruthy (jgetJ data "reply") then jsDisplay (jgetJ data "reply")
                else "Error"⟩] }

end Part003

namespace Part004

/-- `sendMsg` from `part_004` (lines 585-648): the user message is
pushed into the persisted chat state before the request (the
prompt built by `buildPromptWithHistory` only affects the request
payload and is not part of the observable state here); 401/403 hides
panel and bubble; a successful reply goes through `appendBotUI`
(`md.innerHTML = ui.answer_md || ""`, sink `rawHtml`) and is pushed to
the state; error replies are not pushed. -/
def sendMsg (st : WState) (f : FetchOutcome) : WState :=
  let q := jsTrim (sOr st.inputValue "")
  if q = "" then st
  else
    let chat1 : Option (List Msg) := some (pushUserMessageToState q st.now st.chatMessages)
    let st1 : WState := { st with
      bodyMsgs := st.bodyMsgs ++ [⟨"user", .text, q⟩],
      chatMessages := chat1,
      inputValue := "", sendDisabled := true, requests := st.requests + 1 }
    match f with
    | .throws =>
      { st1 with
        bodyMsgs := st1.bodyMsgs ++ [⟨"bot", .text, "Network error."⟩],
        sendDisabled := false }
    | .resp status ctJson parsed =>
      let dataOpt : Option J := if ctJson then parsed else none
      if !(respOk status) && (status == 401 || status == 403) then
        { st1 with panelHidden := true, bubbleDisplay := "none", sendDisabled := false }
      else
        let raw := unwrap (jOr (dataOpt.getD J.null) (J.obj []))
        if respOk status && jsTruthy raw && jsTruthy (jgetJ raw "ok") then
          let uiJ := jgetJ raw "ui"
          let uiObj := if jsTruthy uiJ && typeofIsObject uiJ then uiJ else J.obj []
          let answerText := jOr (jgetJ uiObj "answer_md") (jOr (jgetJ raw "reply") (J.str ""))
          let answerStr := jsDisplay (jOr answerText (J.str ""))
          { st1 with
            bodyMsgs := st1.bodyMsgs ++ [⟨"bot", .rawHtml, sOr answerStr ""⟩],
            chatMessages := some (pushModelMessageToState answerStr st.now chat1),
            sendDisabled := false }
        else
          { st1 with
            bodyMsgs := st1.bodyMsgs ++
              [⟨"bot", .text, jsDisplay (jOr (jAnd raw (jgetJ raw "reply")) (J.str "Network error."))⟩],
            sendDisabled := false }

end Part004

namespace Part005

/-- `sendMsg` from `part_005` (lines 76-102): no status branch, no
send-button disabling; everything inserted via `textContent`. -/
def sendMsg (st : WState) (f : FetchOutcome) : WState :=
  let q := jsTrim st.inputValue
  if q = "" then st
  else
    let st1 : WState := { st with
      bodyMsgs := st.bodyMsgs ++ [⟨"user", .text, q⟩],
      inputValue := "", requests := st.requests + 1 }
    match f with
    | .throws =>
      { st1 with bodyMsgs := st1.bodyMsgs ++ [⟨"bot", .text, "Network error."⟩] }
    | .resp status _ parsed =>
      let raw := parsed.getD (J.obj [])
      let data := unwrap raw
      if respOk status && jsTruthy data && jsTruthy (jgetJ data "ok") then
        { st1 with
          bodyMsgs := st1.bodyMsgs ++
            [⟨"bot", .text, jsDisplay (jOr (jgetJ data "reply") (J.str ""))⟩] }
      else
        { st1 with
          bodyMsgs := st1.bodyMsgs ++
            [⟨"bot", .text, jsDisplay (jOr (jAnd data (jgetJ data "reply")) (J.str "Network error."))⟩] }

end Part005

namespace Part006A

/-- The single reply row built by `appendBotUI` of the first `part_006`
script (lines 188-253): everything is inserted via `textContent`; the
row records the answer text (title/summary/citations/suggestions are
`textContent` sub-elements of the same row and are elided). -/
def appendBotUIRow (ui : J) : RMsg :=
  let ansMd := jgetJ ui "answer_md"
  let ansTx := jgetJ ui "answer_text"
  ⟨"bot", .text, if jsTruthy (jOr ansMd ansTx) then jsDisplay (jOr ansMd ansTx) else ""⟩

/-- The JSON-RPC error message probe of `sendMsg`:
`raw && raw.error && (raw.error.message || (raw.error.data && raw.error.data.message))`. -/
def rpcErrorOf (raw : J) : J :=
  jAnd raw
    (jAnd (jgetJ raw "error")
      (jOr (jgetJ (jgetJ raw "error") "message")
        (jAnd (jgetJ (jgetJ raw "error") "data")
          (jgetJ (jgetJ (jgetJ raw "error") "data") "message"))))

/-- `sendMsg` from the first script of `part_006` (lines 256-326).  A
`busy` flag guards re-entry; a typing row is appended and later has its
text replaced (`replaceTyping`; it is the last row in every reachable
flow).  On 401/403 or a JSON-RPC error the typing bubble becomes an
error message (the widget is *not* hidden); on 429 a rate-limit
message; on `ok` with a structured `ui` the typing row is blanked, the
message container is detached (the `typingNode.parentElement?.
parentElement?.remove?.()` quirk, which removes the body element) and
the reply row appended; the `finally` always re-enables input and
button. -/
def sendMsg (st : WState) (f : FetchOutcome) : WState :=
  let q := jsTrim (sOr st.inputValue "")
  if q = "" || st.busy then st
  else
    let st1 : WState := { st with
      bodyMsgs := st.bodyMsgs ++
        [⟨"user", .text, q⟩, ⟨"bot", .text, "Assistant is typing…"⟩],
      inputValue := "", busy := true, inputDisabled := true, sendDisabled := true,
      requests := st.requests + 1 }
    let fin (s : WState) : WState :=
      { s with busy := false, inputDisabled := false, sendDisabled := false }
    match f with
    | .throws =>
      fin { st1 with
            bodyMsgs := replaceLastContent st1.bodyMsgs "Network error. Please try again." }
    | .resp status _ parsed =>
      let raw := parsed.getD (J.obj [])
      let rpcError := rpcErrorOf raw
      let data := unwrap raw
      if status == 401 || status == 403 || jsTruthy rpcError then
        fin { st1 with
              bodyMsgs := replaceLastContent st1.bodyMsgs
                (jsDisplay (jOr rpcError (J.str "You are not allowed to use this assistant."))) }
      else if status == 429 then
        fin { st1 with
              bodyMsgs := replaceLastContent st1.bodyMsgs
                "You are sending messages too quickly. Please wait a moment." }
      else if respOk status && jsTruthy data then
        if jsTruthy (jgetJ data "ok") && jsTruthy (jgetJ data "ui") then
          fin { st1 with
                bodyMsgs := replaceLastContent st1.bodyMsgs "" ++ [appendBotUIRow (jgetJ data "ui")],
                bodyDetached := true }
        else if jsTruthy (jgetJ data "ok") then
          fin { st1 with
                bodyMsgs := replaceLastContent st1.bodyMsgs
                  (jsDisplay (jOr (jgetJ data "reply") (J.str ""))) }
        else
          fin { st1 with
                bodyMsgs := replaceLastContent st1.bodyMsgs
                  (jsDisplay (jOr (jgetJ data "reply") (J.str "The service is temporarily unavailable."))) }
      else
        fin { st1 with
              bodyMsgs := replaceLastContent st1.bodyMsgs "Network error. Please try again." }

end Part006A

namespace Part006B

/-- `sendMsg` from the second (public) script of `part_006` (lines
559-609): a `…` typing row is shown and removed again; there is no
401/403 branch (any non-2xx status yields `"Network error."`); the
sending state (send and input disabled) is always reset before the
reply or error row is appended. -/
def sendMsg (st : WState) (f : FetchOutcome) : WState :=
  let q := jsTrim st.inputValue
  if q = "" then st
  else
    let st1 : WState := { st with
      bodyMsgs := st.bodyMsgs ++ [⟨"user", .text, q⟩, ⟨"bot", .text, "…"⟩],
      inputValue := "", sendDisabled := true, inputDisabled := true,
      requests := st.requests + 1 }
    match f with
    | .throws =>
      { st1 with
        bodyMsgs := dropLastIfDots st1.bodyMsgs ++ [⟨"bot", .text, "Network error."⟩],
        sendDisabled := false, inputDisabled := false }
    | .resp status _ parsed =>
      let st2 : WState := { st1 with
        bodyMsgs := dropLastIfDots st1.bodyMsgs,
        sendDisabled := false, inputDisabled := false }
      if !(respOk status) || !(jsTruthy (parsed.getD J.null)) then
        { st2 with bodyMsgs := st2.bodyMsgs ++ [⟨"bot", .text, "Network error."⟩] }
      else
        let data := parsed.getD J.null
        if jsTruthy (jgetJ data "ok") then
          { st2 with
            bodyMsgs := st2.bodyMsgs ++
              [⟨"bot", .text, jsDisplay (jOr (jgetJ data "reply") (J.str ""))⟩] }
        else
          { st2 with
            bodyMsgs := st2.bodyMsgs ++
              [⟨"bot", .text, jsDisplay (jOr (jgetJ data "reply") (J.str "Error"))⟩] }

end Part006B

namespace Part007

/-- The citation chip text `` `${ci.file} p.${ci.page}` ``. -/
def citChip (ci : J) : String :=
  jsDisplay (jgetJ ci "file") ++ " p." ++ jsDisplay (jgetJ ci "page")

/-- `appendBotUI` from `part_007` (lines 77-133), textually the same
multi-row `innerText` renderer as the second `part_001` script. -/
def appendBotUIRows (ui : J) : List RMsg :=
  (if jsTruthy (jgetJ ui "title") then [⟨"bot", .text, jsDisplay (jgetJ ui "title")⟩] else [])
  ++ (if jsTruthy (jgetJ ui "summary") then [⟨"bot", .text, jsDisplay (jgetJ ui "summary")⟩] else [])
  ++ (if jsTruthy (jgetJ ui "answer_md") then [⟨"bot", .text, jsDisplay (jgetJ ui "answer_md")⟩] else [])
  ++ (match jgetJ ui "citations" with
      | .arr (c :: cs) => [⟨"bot", .text, String.join ((c :: cs).map citChip)⟩]
      | _ => [])
  ++ (match jgetJ ui "suggestions" with
      | .arr (s :: ss) => [⟨"bot", .text, String.join ((s :: ss).map jsDisplay)⟩]
      | _ => [])

/-- `sendMsg` from `part_007` (lines 143-173): no status branch, no
send-button disabling; structured replies go through the `innerText`
`appendBotUI`. -/
def sendMsg (st : WState) (f : FetchOutcome) : WState :=
  let q := jsTrim st.inputValue
  if q = "" then st
  else
    let st1 : WState := { st with
      bodyMsgs := st.bodyMsgs ++ [⟨"user", .text, q⟩],
      inputValue := "", requests := st.requests + 1 }
    match f with
    | .throws =>
      { st1 with bodyMsgs := st1.bodyMsgs ++ [⟨"bot", .text, "Network error."⟩] }
    | .resp status _ parsed =>
      let raw := parsed.getD (J.obj [])
      let data := unwrap raw
      if respOk status && jsTruthy data && jsTruthy (jgetJ data "ok") then
        if jsTruthy (jgetJ data "ui") then
          { st1 with bodyMsgs := st1.bodyMsgs ++ appendBotUIRows (jgetJ data "ui") }
        else
          { st1 with
            bodyMsgs := st1.bodyMsgs ++
              [⟨"bot", .text, jsDisplay (jOr (jgetJ data "reply") (J.str ""))⟩] }
      else
        { st1 with
          bodyMsgs := st1.bodyMsgs ++
            [⟨"bot", .text, jsDisplay (jOr (jAnd data (jgetJ data "reply")) (J.str "Network error."))⟩] }

end Part007

namespace Part008

/-- `doSend` from `part_008` (lines 81-103): guarded by the
`STATE.sending` flag (the button itself is never disabled); an
unparseable body makes `resp.json()` throw into the catch, whose
message is `"Network error. Please try again."`; error replies use
`data.error || "Error."`.  No status check and no hiding. -/
def doSend (st : WState) (f : FetchOutcome) : WState :=
  if st.sending then st
  else
    let v := jsTrim (sOr st.inputValue "")
    if v = "" then st
    else
      let st1 : WState := { st with
        bodyMsgs := st.bodyMsgs ++ [⟨"user", .text, v⟩],
        inputValue := "", sending := true, requests := st.requests + 1 }
      let fin (s : WState) : WState := { s with sending := false }
      match f with
      | .throws =>
        fin { st1 with
              bodyMsgs := st1.bodyMsgs ++ [⟨"bot", .text, "Network error. Please try again."⟩] }
      | .resp _ _ parsed =>
        match parsed with
        | none =>
          fin { st1 with
                bodyMsgs := st1.bodyMsgs ++ [⟨"bot", .text, "Network error. Please try again."⟩] }
        | some j =>
          let data := jOr (unwrap j) (J.obj [])
          if jsTruthy (jgetJ data "ok") then
            fin { st1 with
                  bodyMsgs := st1.bodyMsgs ++
                    [⟨"bot", .text, jsDisplay (jOr (jgetJ data "reply") (J.str ""))⟩] }
          else
            fin { st1 with
                  bodyMsgs := st1.bodyMsgs ++
                    [⟨"bot", .text, jsDisplay (jOr (jgetJ data "error") (J.str "Error."))⟩] }

end Part008

/-- `x.slice(0, n)` on arrays (other values unchanged). -/
def jArrTake (n : Nat) (x : J) : J :=
  match x with
  | .arr l => .arr (l.take n)
  | other => other

namespace Part009A

/-- `appendBotUI` from the first script of `part_009` (lines 168-243),
returning the reply row and the resulting `minimal` flag of the panel.
First the salvage pass (`extractJsonSafe` on the answer text, merging
recovered fields over the incoming `ui`), then the `looseGet` pass
when the answer still looks like a JSON object; the final answer
string is handed to `mdLiteToHtml(cleanAnswerMd(·))` and assigned to
`innerHTML` (sink `mdHtml`; that renderer escapes `& < >` before
adding its fixed markup, and the title/summary/citation sub-elements
of the row are `textContent`-inserted and elided). -/
def appendBotUI (ui : J) : RMsg × Bool :=
  let amStr0 := jsDisplay (jOr (jgetJ ui "answer_md") (J.str ""))
  let maybe := extractJsonSafe jsonParse amStr0
  let ui1 : J :=
    match maybe with
    | some m =>
      if jsTruthy m &&
          jsTruthy (jOr (jgetJ m "answer_md") (jOr (jgetJ m "summary") (jgetJ m "title"))) then
        J.obj
          [("title", J.str (strTake 80 (jsDisplay (jOr (jgetJ m "title") (jOr (jgetJ ui "title") (J.str "")))))),
           ("summary", J.str (jsDisplay (jOr (jgetJ m "summary") (jOr (jgetJ ui "summary") (J.str ""))))),
           ("answer_md", J.str (jsDisplay (jOr (jgetJ m "answer_md") (jOr (jgetJ m "text") (J.str ""))))),
           ("citations",
             if isArrJ (jgetJ m "citations") then jgetJ m "citations"
             else jOr (jgetJ ui "citations") (J.arr [])),
           ("suggestions",
             if isArrJ (jgetJ m "suggestions") then jArrTake 3 (jgetJ m "suggestions")
             else jOr (jgetJ ui "suggestions") (J.arr []))]
      else ui
    | none => ui
  let am2 : J :=
    match jgetJ ui1 "answer_md" with
    | .str a =>
      if jsStartsWith (jsTrim a) "\x7b" then
        match looseGet a "answer_md" with
        | some s => if s = "" then .str a else .str s
        | none => .str a
      else .str a
    | other => other
  let minimal : Bool :=
    match jgetJ ui1 "citations" with
    | .arr (_ :: _) => false
    | _ => true
  (⟨"bot", .mdHtml, jsDisplay (jOr am2 (J.str ""))⟩, minimal)

/-- The hard-coded service-unavailable reply of the catch branch. -/
def unavailableText : String :=
  "The AI service is temporarily unavailable. Please try again shortly."

/-- `sendMsg` from the first script of `part_009` (lines 246-271).
Its `fetchJSON` returns the parsed body for JSON responses (an
unparseable JSON body makes `r.json()` throw into the catch) and
`null` for non-JSON responses; the HTTP status is never inspected.
A thrown fetch renders `unavailableText` through `appendBotUI`. -/
def sendMsg (st : WState) (f : FetchOutcome) : WState :=
  let q := jsTrim (sOr st.inputValue "")
  if q = "" then st
  else
    let st1 : WState := { st with
      bodyMsgs := st.bodyMsgs ++ [⟨"user", .text, q⟩],
      inputValue := "", sendDisabled := true, requests := st.requests + 1 }
    let applyBot (ui : J) : WState :=
      let rb := appendBotUI ui
      { st1 with
        bodyMsgs := st1.bodyMsgs ++ [rb.1], panelMinimal := rb.2, sendDisabled := false }
    let catchPath : WState :=
      applyBot (J.obj [("answer_md", J.str unavailableText),
                       ("citations", J.arr []), ("suggestions", J.arr [])])
    match f with
    | .throws => catchPath
    | .resp _ ctJson parsed =>
      if ctJson && parsed.isNone then catchPath
      else
        let dataJ : J := if ctJson then parsed.getD J.null else J.null
        let raw := jOr dataJ (J.obj [])
        if jsTruthy raw && jsTruthy (jgetJ raw "ui") then
          applyBot (jgetJ raw "ui")
        else if jsTruthy raw && jsTruthy (jgetJ raw "reply") then
          applyBot (J.obj [("title", J.str ""), ("summary", J.str ""),
                           ("answer_md", jgetJ raw "reply"),
                           ("citations", J.arr []), ("suggestions", J.arr [])])
        else
          applyBot (J.obj [("answer_md", J.str "No answer returned."),
                           ("citations", J.arr []), ("suggestions", J.arr [])])

end Part009A

namespace Part009B

/-- `sendMsg` from the second script of `part_009` (lines 875-944).
The input must be non-empty and a model selected (otherwise an alert
fires and nothing changes); the user message is pushed into the
persisted state (a no-op when no state is loaded) and a `Thinking...`
bot row appended; this variant's `fetchJSON` never throws (a thrown
fetch or abort yields `{ok: false, status: 0, data: null}`), the
`Thinking...` row is removed, and a successful reply is rendered via
`renderMarkdownToElement` (`textContent`-built DOM, sink `domText`)
and pushed to the state; otherwise the fallback reply or
`"Network error."` is appended. -/
def sendMsg (st : WState) (f : FetchOutcome) : WState :=
  let text := jsTrim (sOr st.inputValue "")
  if text = "" then st
  else if !(match st.selectedModel with
            | some s => s ≠ ""
            | none => false) then st
  else
    let chat1 := pushUserMessageToState text st.now st.chatMessages
    let st1 : WState := { st with
      inputValue := "",
      bodyMsgs := st.bodyMsgs ++ [⟨"user", .text, text⟩, ⟨"bot", .text, "Thinking..."⟩],
      chatMessages := chat1,
      sendDisabled := true, requests := st.requests + 1 }
    let okFlag : Bool := match f with
      | .throws => respOk 0
      | .resp status _ _ => respOk status
    let dataOpt : Option J := match f with
      | .throws => none
      | .resp _ _ parsed => parsed
    let st2 : WState := { st1 with bodyMsgs := dropLastIfBot st1.bodyMsgs }
    let raw := unwrap (jOr (dataOpt.getD J.null) (J.obj []))
    if okFlag && jsTruthy raw && jsTruthy (jgetJ raw "ok") then
      let uiJ := jgetJ raw "ui"
      let uiObj := if jsTruthy uiJ && typeofIsObject uiJ then uiJ else J.obj []
      let answerText := jOr (jgetJ uiObj "answer_md") (jOr (jgetJ raw "reply") (J.str ""))
      let answerStr := jsDisplay (jOr answerText (J.str ""))
      { st2 with
        bodyMsgs := st2.bodyMsgs ++ [⟨"bot", .domText, answerStr⟩],
        chatMessages := pushModelMessageToState answerStr st.now chat1,
        sendDisabled := false }
    else
      { st2 with
        bodyMsgs := st2.bodyMsgs ++
          [⟨"bot", .text, jsDisplay (jOr (jAnd raw (jgetJ raw "reply")) (J.str "Network error."))⟩],
        sendDisabled := false }

end Part009B

namespace ReadmeWidget

/-- `send` from the module-script widget embedded in the repository
README: the same JSON-RPC `rpc`-based flow as `part_002` (typing `…`
row, `rpc` throws on unparseable bodies and JSON-RPC errors, no status
check, no hiding, no button disabling). -/
def send (st : WState) (f : FetchOutcome) : WState :=
  let v := jsTrim (sOr st.inputValue "")
  if v = "" then st
  else
    let st1 : WState := { st with
      bodyMsgs := st.bodyMsgs ++ [⟨"user", .text, v⟩, ⟨"bot", .text, "…"⟩],
      inputValue := "", requests := st.requests + 1 }
    let catchPath : WState := { st1 with
      bodyMsgs := dropLastIfDots st1.bodyMsgs ++ [⟨"bot", .text, "Network error."⟩] }
    match f with
    | .throws => catchPath
    | .resp _ _ parsed =>
      match parsed with
      | none => catchPath
      | some j =>
        if jsTruthy (jgetJ j "error") then catchPath
        else
          let r := jgetJ j "result"
          if !(jsTruthy r) || !(jsTruthy (jgetJ r "ok")) then
            { st1 with
              bodyMsgs := dropLastIfDots st1.bodyMsgs ++
                [⟨"bot", .text,
                  "Error: " ++ jsDisplay (jOr (jAnd r (jgetJ r "error")) (J.str "unknown"))⟩] }
          else
            { st1 with
              bodyMsgs := dropLastIfDots st1.bodyMsgs ++
                [⟨"bot", .text, jsDisplay (jOr (jgetJ r "reply") (J.str "(no reply)"))⟩] }

end ReadmeWidget

/-- The fifteen widget variants shipped in the repository (one per
embedded script). -/
inductive Variant where
  | aiChatA | aiChatB
  | part001A | part001B
  | part002 | part003 | part004 | part005
  | part006A | part006B
  | part007 | part008
  | part009A | part009B
  | readmeWidget
deriving DecidableEq, Repr

/-- The send operation of each widget variant. -/
def stepOf : Variant → WState → FetchOutcome → WState
  | .aiChatA => AiChatA.sendMsg
  | .aiChatB => AiChatB.sendMsg
  | .part001A => Part001A.sendMsg
  | .part001B => Part001B.sendMsg
  | .part002 => Part002.doSend
  | .part003 => Part003.sendMsg
  | .part004 => Part004.sendMsg
  | .part005 => Part005.sendMsg
  | .part006A => Part006A.sendMsg
  | .part006B => Part006B.sendMsg
  | .part007 => Part007.sendMsg
  | .part008 => Part008.doSend
  | .part009A => Part009A.sendMsg
  | .part009B => Part009B.sendMsg
  | .readmeWidget => ReadmeWidget.send

/-! ### Shared concrete fixtures and basic lemmas -/

/-- A concrete widget state used by concrete evaluations. -/
def wsBase : WState :=
  { bodyMsgs := [], panelHidden := false, panelMinimal := false, bubbleDisplay := "",
    inputValue := "hello", sendDisabled := false, inputDisabled := false, busy := false,
    sending := false, selectedModel := some "gemini-pro", chatMessages := some [],
    requests := 0, now := 5, bodyDetached := false }

/-- `s || ""` is the identity on strings. -/
theorem sOr_empty_right (s : String) : sOr s "" = s := by
  by_cases h : s = "" <;> simp [sOr, h]

/-! ### C2 — the 100-entry cap on the persisted message log -/

/-- A push operation on the persisted chat state. -/
inductive PushOp where
  | user : String → Nat → PushOp
  | model : String → Nat → PushOp

/-- One `part_004` push (which materialises a fresh state when absent). -/
def p4Step (op : PushOp) (st : Option (List Msg)) : Option (List Msg) :=
  match op with
  | .user t ts => some (Part004.pushUserMessageToState t ts st)
  | .model t ts => some (Part004.pushModelMessageToState t ts st)

/-- One `part_009` (second script) push (a no-op when no state is loaded). -/
def p9Step (op : PushOp) (st : Option (List Msg)) : Option (List Msg) :=
  match op with
  | .user t ts => Part009B.pushUserMessageToState t ts st
  | .model t ts => Part009B.pushModelMessageToState t ts st

/-- Run a sequence of push operations. -/
def applyOps (step : PushOp → Option (List Msg) → Option (List Msg))
    (ops : List PushOp) (st : Option (List Msg)) : Option (List Msg) :=
  ops.foldl (fun s op => step op s) st

theorem pushCapped_length_le (m : Msg) (l : List Msg) : (pushCapped m l).length ≤ 100 := by
  simp only [pushCapped]
  split
  · rename_i h
    simp only [List.length_drop]
    omega
  · rename_i h
    omega

theorem applyOps_bounded (step : PushOp → Option (List Msg) → Option (List Msg))
    (hstep : ∀ op st l, step op st = some l → l.length ≤ 100) :
    ∀ (ops : List PushOp) (op : PushOp) (init : Option (List Msg)) (l : List Msg),
      applyOps step (op :: ops) init = some l → l.length ≤ 100 := by
  intro ops
  induction ops with
  | nil =>
    intro op init l h
    exact hstep op init l (by simpa [applyOps] using h)
  | cons o' rest ih =>
    intro op init l h
    exact ih o' (step op init) l (by simpa [applyOps] using h)

theorem p4Step_bounded (op : PushOp) (st : Option (List Msg)) (l : List Msg)
    (h : p4Step op st = some l) : l.length ≤ 100 := by
  cases op <;>
    simp [p4Step, Part004.pushUserMessageToState, Part004.pushModelMessageToState] at h <;>
    exact h ▸ pushCapped_length_le _ _

theorem p9Step_bounded (op : PushOp) (st : Option (List Msg)) (l : List Msg)
    (h : p9Step op st = some l) : l.length ≤ 100 := by
  cases op <;> cases st <;>
    simp [p9Step, Part009B.pushUserMessageToState, Part009B.pushModelMessageToState] at h <;>
    exact h ▸ pushCapped_length_le _ _

/-- C2: starting from any chat state, after every non-empty sequence of
`pushUserMessageToState` / `pushModelMessageToState` operations (in the
`part_004` variant, which materialises a fresh state, and the second
`part_009` variant, which is a no-op without a state) the persisted
`messages` array holds at most 100 entries; and each push truncates the
extended array to its most recent 100 entries. -/
theorem c2_messages_capped_at_100 :
    (∀ (op : PushOp) (ops : List PushOp) (init : Option (List Msg)) (l : List Msg),
      (applyOps p4Step (op :: ops) init = some l → l.length ≤ 100) ∧
      (applyOps p9Step (op :: ops) init = some l → l.length ≤ 100)) ∧
    (∀ (m : Msg) (msgs : List Msg),
      pushCapped m msgs = (msgs ++ [m]).drop ((msgs ++ [m]).length - 100)) := by
  constructor
  · intro op ops init l
    exact ⟨applyOps_bounded p4Step p4Step_bounded ops op init l,
           applyOps_bounded p9Step p9Step_bounded ops op init l⟩
  · intro m msgs
    simp only [pushCapped]
    split
    · rfl
    · rename_i h
      have h0 : (msgs ++ [m]).length - 100 = 0 := by omega
      rw [h0, List.drop_zero]

/-- C2 witness: a concrete push through both variants stays within the cap. -/
theorem c2_messages_capped_at_100_witness :
    applyOps p4Step [PushOp.user "hi" 7] (some []) = some [⟨"user", "hi", 7⟩] ∧
    ([Msg.mk "user" "hi" 7] : List Msg).length ≤ 100 :=
  ⟨rfl, (c2_messages_capped_at_100.1 (.user "hi" 7) [] (some []) [⟨"user", "hi", 7⟩]).1 rfl⟩

/-! ### C6 — sending with empty or whitespace-only input does nothing -/

/-- C6: in every widget variant, invoking the send operation while the
input trims to the empty string leaves the state unchanged — no message
row is appended, no request is issued (`requests` unchanged), the
stored chat state, the input and the buttons all keep their state —
whatever the fetch would have returned. -/
theorem c6_empty_input_is_noop :
    ∀ (v : Variant) (st : WState) (f : FetchOutcome),
      jsTrim st.inputValue = "" → stepOf v st f = st := by
  intro v st f h
  cases v <;>
    simp [stepOf, AiChatA.sendMsg, AiChatB.sendMsg, Part001A.sendMsg, Part001B.sendMsg,
          Part002.doSend, Part003.sendMsg, Part004.sendMsg, Part005.sendMsg,
          Part006A.sendMsg, Part006B.sendMsg, Part007.sendMsg, Part008.doSend,
          Part009A.sendMsg, Part009B.sendMsg, ReadmeWidget.send,
          sOr_empty_right, h]

/-- C6 witness: a concrete whitespace-only send is a no-op. -/
theorem c6_empty_input_is_noop_witness :
    stepOf .part004 { wsBase with inputValue := "  " } .throws
      = { wsBase with inputValue := "  " } :=
  c6_empty_input_is_noop .part004 { wsBase with inputValue := "  " } .throws rfl

/-! ### C10 — the JSON-RPC `unwrap` helpers -/

/-- C10 (amended): the nine one-liner `unwrap` helpers are extensionally
equal, and return `x.result` exactly when `x` is a truthy value of
`typeof "object"` carrying a `"result"` key (even when `x.result` is
null/false/0/""); the first `part_006` script's `unwrap` instead also
requires `x.result` to be truthy, returning the envelope unchanged on a
falsy `result`. -/
theorem c10_unwrap_equivalence :
    ∀ x : J,
      (AiChatB.unwrap x = AiChatA.unwrap x ∧
       Part001A.unwrap x = AiChatA.unwrap x ∧
       Part001B.unwrap x = AiChatA.unwrap x ∧
       Part004.unwrap x = AiChatA.unwrap x ∧
       Part005.unwrap x = AiChatA.unwrap x ∧
       Part007.unwrap x = AiChatA.unwrap x ∧
       Part008.unwrap x = AiChatA.unwrap x ∧
       Part009B.unwrap x = AiChatA.unwrap x) ∧
      AiChatA.unwrap x =
        (if jsTruthy x && typeofIsObject x && hasKey x "result" then jgetJ x "result" else x) ∧
      Part006A.unwrap x =
        (if jsTruthy x && typeofIsObject x && hasKey x "result" && jsTruthy (jgetJ x "result")
         then jgetJ x "result" else x) := by
  intro x
  refine ⟨⟨rfl, rfl, rfl, rfl, rfl, rfl, rfl, rfl⟩, rfl, ?_⟩
  cases h1 : jsTruthy x <;> cases h2 : typeofIsObject x <;>
    cases h3 : hasKey x "result" <;> cases h4 : jsTruthy (jgetJ x "result") <;>
    simp [Part006A.unwrap, h1, h2, h3, h4]

/-- C10 counterexample: on the envelope `{result: null}` the standard
helpers return `null` while the first `part_006` helper returns the
envelope itself, so the helpers are not extensionally equal as claimed. -/
theorem c10_counterexample :
    AiChatA.unwrap (J.obj [("result", J.null)]) = J.null ∧
    Part006A.unwrap (J.obj [("result", J.null)]) = J.obj [("result", J.null)] ∧
    J.null ≠ J.obj [("result", J.null)] :=
  ⟨rfl, rfl, fun h => J.noConfusion h⟩

/-! ### C3 — reply markup reaching the DOM unescaped -/

/-- C3: evaluating the first `ai_chat.js` widget (and the `part_004`
widget) at a successful reply whose text contains HTML: the reply
string is assigned verbatim to the answer container's `innerHTML`
(sink `rawHtml`, no escaping), so the `<` of the reply reaches the DOM
as markup — contradicting the README's "safe DOM updates (no XSS)".
The `esc` helper other variants use would have removed every `<`. -/
theorem c3_reply_markup_reaches_innerHTML :
    (stepOf .aiChatA { wsBase with inputValue := "hi" }
      (.resp 200 true (some (J.obj [("ok", J.bool true),
        ("reply", J.str "<img src=x onerror=alert(1)>")])))).bodyMsgs =
      [⟨"user", .text, "hi"⟩, ⟨"bot", .rawHtml, "<img src=x onerror=alert(1)>"⟩] ∧
    (stepOf .part004 { wsBase with inputValue := "hi" }
      (.resp 200 true (some (J.obj [("ok", J.bool true),
        ("reply", J.str "<img src=x onerror=alert(1)>")])))).bodyMsgs =
      [⟨"user", .text, "hi"⟩, ⟨"bot", .rawHtml, "<img src=x onerror=alert(1)>"⟩] ∧
    ("<img src=x onerror=alert(1)>".data.contains '<') = true ∧
    strContainsSub "<" (Part001A.esc "<img src=x onerror=alert(1)>") = false := by
  refine ⟨rfl, rfl, rfl, rfl⟩

/-! ### C1 — hiding the widget on HTTP 401/403 -/

/-- C1 (amended): in the four widget variants whose send flow checks
the response status — the first `ai_chat.js` script, both `part_001`
scripts and `part_004` — a `/ai_chat/send` response with HTTP status
401 or 403 hides the widget: the panel's hidden flag becomes true, the
bubble's display style becomes `"none"`, and no bot row is appended
(the body gains only the echoed user message).  The other eleven
variants do not hide the widget (see the counterexample). -/
theorem c1_unauthorized_hides_in_checking_variants :
    ∀ (st : WState) (status : Nat) (ctJson : Bool) (parsed : Option J) (v : Variant),
      jsTrim st.inputValue ≠ "" →
      (status = 401 ∨ status = 403) →
      v ∈ ([.aiChatA, .part001A, .part001B, .part004] : List Variant) →
      (stepOf v st (.resp status ctJson parsed)).panelHidden = true ∧
      (stepOf v st (.resp status ctJson parsed)).bubbleDisplay = "none" ∧
      (stepOf v st (.resp status ctJson parsed)).bodyMsgs =
        st.bodyMsgs ++ [⟨"user", .text, jsTrim st.inputValue⟩] := by
  intro st status ctJson parsed v hq hs hv
  have hstat : (!(respOk status) && (status == 401 || status == 403)) = true := by
    rcases hs with h | h <;> subst h <;> rfl
  fin_cases hv <;>
    simp [stepOf, AiChatA.sendMsg, Part001A.sendMsg, Part001B.sendMsg, Part004.sendMsg,
          sOr_empty_right, hq, hstat]

/-- C1 witness: a concrete 403 response hides the `part_004` widget. -/
theorem c1_unauthorized_hides_witness :
    (stepOf .part004 { wsBase with inputValue := "hi" } (.resp 403 true (some (J.obj [])))).panelHidden = true ∧
    (stepOf .part004 { wsBase with inputValue := "hi" } (.resp 403 true (some (J.obj [])))).bubbleDisplay = "none" ∧
    (stepOf .part004 { wsBase with inputValue := "hi" } (.resp 403 true (some (J.obj [])))).bodyMsgs =
      ({ wsBase with inputValue := "hi" } : WState).bodyMsgs ++
        [⟨"user", .text, jsTrim ({ wsBase with inputValue := "hi" } : WState).inputValue⟩] :=
  c1_unauthorized_hides_in_checking_variants { wsBase with inputValue := "hi" } 403 true
    (some (J.obj [])) .part004 (by decide) (Or.inr rfl) (by simp)

/-- C1 counterexample: the `part_003` widget's send operation, on a
POST that completes with HTTP status 403, does not hide anything — the
panel stays visible, the bubble keeps its display style, and a bot row
(`"Error"`) is appended — so the claim fails for that widget variant. -/
theorem c1_counterexample :
    (stepOf .part003 { wsBase with inputValue := "hi" } (.resp 403 true (some (J.obj [])))).panelHidden = false ∧
    (stepOf .part003 { wsBase with inputValue := "hi" } (.resp 403 true (some (J.obj [])))).bubbleDisplay = "" ∧
    (stepOf .part003 { wsBase with inputValue := "hi" } (.resp 403 true (some (J.obj [])))).bodyMsgs =
      [⟨"user", .text, "hi"⟩, ⟨"bot", .text, "Error"⟩] := by
  refine ⟨rfl, rfl, rfl⟩

/-! ### C5 — behaviour when the fetch to `/ai_chat/send` throws -/

theorem dropLastIfDots_append_two (l : List RMsg) (a r : RMsg) (h : r.content = "…") :
    dropLastIfDots (l ++ [a, r]) = l ++ [a] := by
  have : l ++ [a, r] = (l ++ [a]) ++ [r] := by simp
  rw [this]
  simp [dropLastIfDots, List.getLast?_concat, h, List.dropLast_concat]

theorem dropLastIfBot_append_two (l : List RMsg) (a r : RMsg) (h : r.who = "bot") :
    dropLastIfBot (l ++ [a, r]) = l ++ [a] := by
  have : l ++ [a, r] = (l ++ [a]) ++ [r] := by simp
  rw [this]
  simp [dropLastIfBot, List.getLast?_concat, h, List.dropLast_concat]

theorem replaceLastContent_append_two (l : List RMsg) (a r : RMsg) (s : String) :
    replaceLastContent (l ++ [a, r]) s = l ++ [a, { r with content := s }] := by
  have : l ++ [a, r] = (l ++ [a]) ++ [r] := by simp
  rw [this]
  simp [replaceLastContent, List.getLast?_concat, List.dropLast_concat]

/-- Whether a variant disables the send control during the request (and
re-enables it afterwards); the other variants never touch it. -/
def disablesSend : Variant → Bool
  | .aiChatA => true
  | .part001A => true
  | .part001B => true
  | .part004 => true
  | .part006A => true
  | .part006B => true
  | .part009A => true
  | .part009B => true
  | _ => false

/-- The bot row each variant produces when the fetch to `/ai_chat/send`
throws: the generic `"Network error."` text everywhere except the first
`part_006` script and `part_008` (`"Network error. Please try again."`)
and the first `part_009` script, which renders its service-unavailable
text through its markdown renderer. -/
def networkFailureRow : Variant → RMsg
  | .part006A => ⟨"bot", .text, "Network error. Please try again."⟩
  | .part008 => ⟨"bot", .text, "Network error. Please try again."⟩
  | .part009A => ⟨"bot", .mdHtml, Part009A.unavailableText⟩
  | _ => ⟨"bot", .text, "Network error."⟩

theorem p9a_error_row :
    Part009A.appendBotUI
      (J.obj [("answer_md", J.str Part009A.unavailableText),
              ("citations", J.arr []), ("suggestions", J.arr [])]) =
      (⟨"bot", .mdHtml, Part009A.unavailableText⟩, true) := rfl

/-- C5 (amended): in every widget variant, when the fetch to
`/ai_chat/send` throws (network failure or timeout abort), the send
operation nets exactly one bot row — the variant's network-failure
message per `networkFailureRow`, which is the generic
`"Network error."` in twelve variants but a different text in the
first `part_006` script, `part_008`, and the first `part_009` script —
and the send button ends enabled in every variant that had disabled it
(the rest never disable it). -/
theorem c5_throw_appends_failure_row :
    ∀ (v : Variant) (st : WState),
      jsTrim st.inputValue ≠ "" →
      st.busy = false → st.sending = false →
      (∀ s, st.selectedModel = some s → s ≠ "") →
      (∃ s, st.selectedModel = some s) →
      (stepOf v st .throws).bodyMsgs =
        st.bodyMsgs ++ [⟨"user", .text, jsTrim st.inputValue⟩, networkFailureRow v] ∧
      (stepOf v st .throws).sendDisabled =
        (if disablesSend v then false else st.sendDisabled) := by
  intro v st hq hb hsnd hselA hselE
  obtain ⟨s, hs⟩ := hselE
  have hs' : s ≠ "" := hselA s hs
  cases v <;>
    simp [stepOf, AiChatA.sendMsg, AiChatB.sendMsg, Part001A.sendMsg, Part001B.sendMsg,
          Part002.doSend, Part003.sendMsg, Part004.sendMsg, Part005.sendMsg,
          Part006A.sendMsg, Part006B.sendMsg, Part007.sendMsg, Part008.doSend,
          Part009A.sendMsg, Part009B.sendMsg, ReadmeWidget.send,
          networkFailureRow, disablesSend, sOr_empty_right,
          dropLastIfDots_append_two, dropLastIfBot_append_two, replaceLastContent_append_two,
          p9a_error_row, respOk, Part009B.unwrap, jOr, jAnd, jsTruthy, jgetJ, jgetOpt,
          lookupField, typeofIsObject, hasKey, jsDisplay, jsDisplayF,
          hq, hb, hsnd, hs, hs']

/-- C5 witness: a concrete thrown fetch in the first `ai_chat.js`
widget nets the user echo plus one `"Network error."` bot row, with the
send button re-enabled. -/
theorem c5_throw_appends_failure_row_witness :
    (stepOf .aiChatA { wsBase with inputValue := "hi" } .throws).bodyMsgs =
      ({ wsBase with inputValue := "hi" } : WState).bodyMsgs ++
        [⟨"user", .text, jsTrim ({ wsBase with inputValue := "hi" } : WState).inputValue⟩,
         networkFailureRow .aiChatA] ∧
    (stepOf .aiChatA { wsBase with inputValue := "hi" } .throws).sendDisabled =
      (if disablesSend .aiChatA then false else ({ wsBase with inputValue := "hi" } : WState).sendDisabled) :=
  c5_throw_appends_failure_row .aiChatA { wsBase with inputValue := "hi" }
    (by decide) rfl rfl
    (by intro s h; simp [wsBase] at h; subst h; decide)
    ⟨"gemini-pro", rfl⟩

/-- C5 counterexample: when the fetch throws, the first `part_009`
widget's bot message is its service-unavailable text — it does not even
contain the words "Network error" — so the claim that every variant
appends the generic "Network error" message fails. -/
theorem c5_counterexample :
    (stepOf .part009A { wsBase with inputValue := "hi" } .throws).bodyMsgs =
      [⟨"user", .text, "hi"⟩, ⟨"bot", .mdHtml, Part009A.unavailableText⟩] ∧
    strContainsSub "Network error" Part009A.unavailableText = false ∧
    Part009A.unavailableText ≠ "Network error." ∧
    (stepOf .part009A { wsBase with inputValue := "hi" } .throws).sendDisabled = false := by
  refine ⟨rfl, by decide, by decide, rfl⟩

/-! ### C9 — `renderModels` and the selected model -/

/-- C9 (amended): when the models argument is not a non-empty array,
both `renderModels` variants hide the models bar and null the selected
name.  On a non-empty array both show the bar; the chip variant
(first `ai_chat.js` script) selects `default_model` whenever it is
truthy and otherwise the first entry's `model_name` (null when that is
falsy); the `part_004` dropdown variant then re-aligns the choice with
the actual option values — a truthy `default_model` that matches an
option is kept, but one that matches no option is replaced by the
first option's name (or null when there are no options). -/
theorem c9_renderModels_selection :
    ∀ (models defaultModel : J),
      ((isArrJ models = false ∨ models = J.arr []) →
        (AiChatA.renderModels models defaultModel).display = "none" ∧
        (AiChatA.renderModels models defaultModel).selected = J.null ∧
        (Part004.renderModels models defaultModel).display = "none" ∧
        (Part004.renderModels models defaultModel).selected = J.null) ∧
      (∀ m0 rest, models = J.arr (m0 :: rest) →
        (AiChatA.renderModels models defaultModel).display = "flex" ∧
        (Part004.renderModels models defaultModel).display = "flex" ∧
        (jsTruthy defaultModel = true →
          (AiChatA.renderModels models defaultModel).selected = defaultModel) ∧
        (jsTruthy defaultModel = false →
          (AiChatA.renderModels models defaultModel).selected =
            jOr (jAnd m0 (jgetJ m0 "model_name")) J.null) ∧
        (∀ s, defaultModel = J.str s → s ≠ "" →
          (optionValues (m0 :: rest)).contains s = true →
          (Part004.renderModels models defaultModel).selected = J.str s) ∧
        (∀ s, defaultModel = J.str s → s ≠ "" →
          (optionValues (m0 :: rest)).contains s = false →
          (Part004.renderModels models defaultModel).selected =
            (match optionValues (m0 :: rest) with
             | o :: _ => J.str o
             | [] => J.null))) := by
  intro models defaultModel
  constructor
  · intro h
    rcases h with h | h
    · cases models with
      | arr l => cases l with
        | nil => simp [AiChatA.renderModels, Part004.renderModels]
        | cons a t => simp [isArrJ] at h
      | null => simp [AiChatA.renderModels, Part004.renderModels]
      | bool b => simp [AiChatA.renderModels, Part004.renderModels]
      | num n => simp [AiChatA.renderModels, Part004.renderModels]
      | str s => simp [AiChatA.renderModels, Part004.renderModels]
      | obj fs => simp [AiChatA.renderModels, Part004.renderModels]
    · subst h
      simp [AiChatA.renderModels, Part004.renderModels]
  · intro m0 rest h
    subst h
    refine ⟨rfl, rfl, ?_, ?_, ?_, ?_⟩
    · intro hd
      simp [AiChatA.renderModels, jOr, hd]
    · intro hd
      simp [AiChatA.renderModels, jOr, hd]
    · intro s hd hs hmem
      subst hd
      have ht : jsTruthy (J.str s) = true := by simp [jsTruthy, hs]
      have hmem' : s ∈ optionValues (m0 :: rest) := by simpa using hmem
      simp [Part004.renderModels, jOr, ht, hmem']
    · intro s hd hs hmem
      subst hd
      have ht : jsTruthy (J.str s) = true := by simp [jsTruthy, hs]
      have hmem' : s ∉ optionValues (m0 :: rest) := by simpa using hmem
      simp [Part004.renderModels, jOr, ht, hmem']

/-- C9 witness: with models `[{model_name:"a"},{model_name:"c"}]` and
backend default `"c"`, both variants pick `"c"`; with a non-array both
hide the bar. -/
theorem c9_renderModels_selection_witness :
    (AiChatA.renderModels (J.arr [J.obj [("model_name", J.str "a")], J.obj [("model_name", J.str "c")]]) (J.str "c")).selected = J.str "c" ∧
    (Part004.renderModels (J.arr [J.obj [("model_name", J.str "a")], J.obj [("model_name", J.str "c")]]) (J.str "c")).selected = J.str "c" ∧
    (Part004.renderModels (J.num 7) (J.str "c")).display = "none" := by
  have h := c9_renderModels_selection
    (J.arr [J.obj [("model_name", J.str "a")], J.obj [("model_name", J.str "c")]]) (J.str "c")
  have h2 := (h.2 (J.obj [("model_name", J.str "a")]) [J.obj [("model_name", J.str "c")]] rfl)
  refine ⟨h2.2.2.1 rfl, h2.2.2.2.2.1 "c" rfl (by decide) (by decide), ?_⟩
  exact ((c9_renderModels_selection (J.num 7) (J.str "c")).1 (Or.inl rfl)).2.2.1

/-- C9 counterexample: in the `part_004` dropdown variant, with models
`[{model_name:"a"}]` and backend default `"b"` (given but matching no
option), `renderModels` selects `"a"`, not the backend default —
refuting the claim that the selected name is the backend
`default_model` whenever one is given. -/
theorem c9_counterexample :
    jsTruthy (J.str "b") = true ∧
    (Part004.renderModels (J.arr [J.obj [("model_name", J.str "a")]]) (J.str "b")).selected = J.str "a" ∧
    J.str "a" ≠ J.str "b" := by
  refine ⟨rfl, rfl, by simp⟩

/-! ### C8 — `buildPromptWithHistory` -/

/-- The last `min(n, length)` elements of a list, phrased as in the
claim (the most recent entries). -/
def specLastN (n : Nat) (l : List α) : List α := (l.reverse.take n).reverse

/-- A history line as described by the claim: prefix `"User: "` for
user messages and `"Assistant: "` for every other role. -/
def specHistLine (m : Msg) : String :=
  (if m.role = "user" then "User: " else "Assistant: ") ++ m.content

theorem drop_length_sub_eq_specLastN (n : Nat) (l : List α) :
    l.drop (l.length - n) = specLastN n l := by
  have h := List.rtake_eq_reverse_take_reverse (l := l) (n := n)
  simpa [List.rtake, specLastN] using h

/-- C8: for a question that trims to the empty string both
`buildPromptWithHistory` variants return `""`; for a non-empty trimmed
question `q` they return `q` itself when the stored history is absent
or empty, and otherwise exactly the last `min(6, length)` stored
messages rendered one per line (`"User: "` / `"Assistant: "`
prefixes), followed by an empty line, `"User: " ++ q` and the final
line `"Assistant:"`, joined by newlines; the `part_009` copy is
extensionally equal to the `part_004` one. -/
theorem c8_buildPromptWithHistory :
    ∀ (st : Option (List Msg)) (q : String),
      (jsTrim q = "" →
        Part004.buildPromptWithHistory st q = "") ∧
      (jsTrim q = q → q ≠ "" →
        ((st = none ∨ st = some []) → Part004.buildPromptWithHistory st q = q) ∧
        (∀ msgs, st = some msgs → msgs ≠ [] →
          Part004.buildPromptWithHistory st q =
            joinSep "\n" ((specLastN 6 msgs).map specHistLine ++
              ["", "User: " ++ q, "Assistant:"]))) ∧
      Part009B.buildPromptWithHistory st q = Part004.buildPromptWithHistory st q := by
  intro st q
  refine ⟨?_, ?_, rfl⟩
  · intro h
    simp [Part004.buildPromptWithHistory, h]
  · intro htrim hq
    constructor
    · intro h
      rcases h with h | h <;> subst h <;>
        simp [Part004.buildPromptWithHistory, htrim, hq]
    · intro msgs hst hmsgs
      subst hst
      have hlen : msgs.length ≠ 0 := by simpa using hmsgs
      simp only [Part004.buildPromptWithHistory, htrim]
      rw [if_neg hq, if_neg hlen, drop_length_sub_eq_specLastN]
      rfl

/-- C8 witness: a concrete two-message history and question. -/
theorem c8_buildPromptWithHistory_witness :
    Part004.buildPromptWithHistory (some [⟨"user", "a", 0⟩, ⟨"model", "b", 1⟩]) "next" =
      joinSep "\n" ((specLastN 6 [Msg.mk "user" "a" 0, Msg.mk "model" "b" 1]).map specHistLine ++
        ["", "User: " ++ "next", "Assistant:"]) ∧
    Part004.buildPromptWithHistory (some [⟨"user", "a", 0⟩, ⟨"model", "b", 1⟩]) "next" =
      "User: a\nAssistant: b\n\nUser: next\nAssistant:" ∧
    Part004.buildPromptWithHistory (some []) " " = "" :=
  ⟨((c8_buildPromptWithHistory (some [⟨"user", "a", 0⟩, ⟨"model", "b", 1⟩]) "next").2.1
      rfl (by decide)).2 _ rfl (by decide),
   by decide,
   (c8_buildPromptWithHistory (some []) " ").1 rfl⟩

/-! ### C7 — `saveChatState` / `loadChatState` -/

theorem storeGet_setEntry_self (k v : String) :
    ∀ store : List (String × String), storeGet (setEntry k v store) k = some v := by
  intro store
  induction store with
  | nil => simp [setEntry, storeGet]
  | cons hd tl ih =>
    obtain ⟨k', v'⟩ := hd
    by_cases h : k' = k
    · subst h
      simp [setEntry, storeGet]
    · simp [setEntry, storeGet, h, ih]

theorem lookupField_setFieldList_ne (k k' : String) (v : J) (h : k' ≠ k) :
    ∀ fs, lookupField k' (setFieldList k v fs) = lookupField k' fs := by
  intro fs
  induction fs with
  | nil => simp [setFieldList, lookupField, Ne.symm h]
  | cons hd tl ih =>
    obtain ⟨k₀, v₀⟩ := hd
    simp only [setFieldList]
    by_cases hk : k₀ = k
    · subst hk
      simp [lookupField, Ne.symm h]
    · simp only [if_neg hk]
      by_cases hk' : k₀ = k'
      · simp [lookupField, hk']
      · simp [lookupField, hk', ih]

/-- C7: saving a chat state whose `version` is 1 and whose `messages`
is an array, and loading it back under the same key, restores exactly
the saved blob (the one with `updated` stamped by `saveChatState`),
given that the JSON serialisation round-trips on it; and loading a
stored blob whose `version` is not 1 or whose `messages` is not an
array discards it and installs (and saves back) the fresh empty state
`{version: 1, model, messages: [], created, updated}`. -/
theorem c7_chatState_roundtrip_and_validation :
    ∀ (parse : String → Option J) (stringify : J → String) (store : Store) (key : String)
      (blob : J) (model : J) (now : Nat),
      (jgetOpt blob "version" = some (J.num 1) →
       (∃ xs, jgetOpt blob "messages" = some (J.arr xs)) →
       stringify (jsetField blob "updated" (J.num now)) ≠ "" →
       parse (stringify (jsetField blob "updated" (J.num now))) =
         some (jsetField blob "updated" (J.num now)) →
       (Part004.loadChatState parse stringify
          (Part004.saveChatState stringify store key blob now).2 key model now).1 =
         (Part004.saveChatState stringify store key blob now).1) ∧
      (∀ raw p, storeGet store key = some raw → raw ≠ "" → parse raw = some p →
        (jgetJ p "version" ≠ J.num 1 ∨ ∀ xs, jgetJ p "messages" ≠ J.arr xs) →
        Part004.loadChatState parse stringify store key model now =
          (Part004.freshChatState model now,
           storeSet store key (stringify (Part004.freshChatState model now)))) := by
  intro parse stringify store key blob model now
  constructor
  · intro h1 h2 hne hparse
    obtain ⟨xs, hxs⟩ := h2
    obtain ⟨fs, rfl⟩ : ∃ fs, blob = J.obj fs := by
      cases blob <;> simp [jgetOpt] at h1
      exact ⟨_, rfl⟩
    have hv : jgetOpt (jsetField (J.obj fs) "updated" (J.num now)) "version" =
        some (J.num 1) := by
      simpa [jsetField, jgetOpt,
             lookupField_setFieldList_ne "updated" "version" (J.num now) (by decide)] using h1
    have hm : jgetOpt (jsetField (J.obj fs) "updated" (J.num now)) "messages" =
        some (J.arr xs) := by
      simpa [jsetField, jgetOpt,
             lookupField_setFieldList_ne "updated" "messages" (J.num now) (by decide)] using hxs
    have hvalid : Part004.isValidChatState (jsetField (J.obj fs) "updated" (J.num now)) = true := by
      simp [Part004.isValidChatState, jsetField, jsTruthy]
      constructor
      · simp [jsetField] at hv
        simp [jgetJ, hv]
      · simp [jsetField] at hm
        simp [jgetJ, hm]
    simp [Part004.loadChatState, Part004.saveChatState, storeSet,
          storeGet_setEntry_self, hne, hparse, hvalid]
  · intro raw p hget hraw hparse hbad
    have hinvalid : Part004.isValidChatState p = false := by
      unfold Part004.isValidChatState
      rcases hbad with hb | hb
      · have hv : (match jgetJ p "version" with
            | J.num n => n == 1
            | _ => false) = false := by
          cases hval : jgetJ p "version"
          case num n =>
            by_cases hn : n = 1
            · exact absurd (by rw [hval, hn]) hb
            · simp [hn]
          all_goals simp
        simp [hv]
      · have hm : (match jgetJ p "messages" with
            | J.arr _ => true
            | _ => false) = false := by
          cases hval : jgetJ p "messages"
          case arr l => exact (hb l hval).elim
          all_goals simp
        simp [hm]
    have hfresh : jsetField (Part004.freshChatState model now) "updated" (J.num now) =
        Part004.freshChatState model now := rfl
    simp [Part004.loadChatState, Part004.saveChatState, hget, hraw, hparse, hinvalid, hfresh]

/-- C7 witness: a concrete round-trip through the `jsonParse` /
`jsonStringify` models, and a concrete stale blob (`version: 2`) being
replaced by the fresh state. -/
theorem c7_chatState_roundtrip_witness :
    (Part004.loadChatState jsonParse jsonStringify
        (Part004.saveChatState jsonStringify [] "waicm_chat_v1_7_global"
          (J.obj [("version", J.num 1), ("model", J.null),
                  ("messages", J.arr [J.obj [("role", J.str "user"), ("content", J.str "hi"), ("ts", J.num 3)]]),
                  ("created", J.num 1), ("updated", J.num 2)]) 9).2
        "waicm_chat_v1_7_global" J.null 9).1 =
      (Part004.saveChatState jsonStringify [] "waicm_chat_v1_7_global"
        (J.obj [("version", J.num 1), ("model", J.null),
                ("messages", J.arr [J.obj [("role", J.str "user"), ("content", J.str "hi"), ("ts", J.num 3)]]),
                ("created", J.num 1), ("updated", J.num 2)]) 9).1 ∧
    Part004.loadChatState jsonParse jsonStringify
        [("k", "\x7b\"version\":2\x7d")] "k" J.null 9 =
      (Part004.freshChatState J.null 9,
       storeSet [("k", "\x7b\"version\":2\x7d")] "k"
         (jsonStringify (Part004.freshChatState J.null 9))) :=
  ⟨(c7_chatState_roundtrip_and_validation jsonParse jsonStringify [] "waicm_chat_v1_7_global"
      (J.obj [("version", J.num 1), ("model", J.null),
              ("messages", J.arr [J.obj [("role", J.str "user"), ("content", J.str "hi"), ("ts", J.num 3)]]),
              ("created", J.num 1), ("updated", J.num 2)]) J.null 9).1
      rfl ⟨_, rfl⟩ (by decide) rfl,
   (c7_chatState_roundtrip_and_validation jsonParse jsonStringify
      [("k", "\x7b\"version\":2\x7d")] "k" J.null J.null 9).2
      "\x7b\"version\":2\x7d" (J.obj [("version", J.num 2)]) rfl (by decide) rfl
      (Or.inl (by simp [jgetJ, jgetOpt, lookupField]))⟩

/-! ### C4 — `extractJsonSafe` and its salvage attempts -/

theorem take_one_get_one {α : Type} (l : List α) : (l.take 1).get? 1 = none := by
  apply List.get?_eq_none.mpr
  have := List.length_take 1 l
  omega

theorem stripFences_of_fenced (s : String) (h : jsStartsWith (jsTrim s) "```" = true) :
    Part009A.stripFences s = "" := by
  simp only [Part009A.stripFences, h, if_true, take_one_get_one, Option.getD_none]
  rfl

theorem dropToBrace_eq_none (l : List Char) (h : l.contains braceL = false) :
    Part009A.dropToBrace l = none := by
  induction l with
  | nil => rfl
  | cons c rest ih =>
    simp only [List.contains_cons, Bool.or_eq_false_iff] at h
    obtain ⟨h1, h2⟩ := h
    have h1' : c ≠ braceL := Ne.symm (by simpa using h1)
    simp [Part009A.dropToBrace, h1', ih h2]

theorem fbLoop_no_close :
    ∀ (l : List Char) (d : Int) (acc : List Char),
      l.contains braceR = false → Part009A.fbLoop l d acc = none := by
  intro l
  induction l with
  | nil => intro d acc _; rfl
  | cons c rest ih =>
    intro d acc h
    simp only [List.contains_cons, Bool.or_eq_false_iff] at h
    obtain ⟨h1, h2⟩ := h
    have h1' : c ≠ braceR := Ne.symm (by simpa using h1)
    by_cases hc : c = braceL
    · simp [Part009A.fbLoop, hc, h1', ih _ _ h2]
    · simp [Part009A.fbLoop, hc, h1', ih _ _ h2]

theorem dropToBrace_some_contains (x : Char) :
    ∀ (l suf : List Char), Part009A.dropToBrace l = some suf →
      l.contains x = false → suf.contains x = false := by
  intro l
  induction l with
  | nil => intro suf h; cases h
  | cons c rest ih =>
    intro suf h hx
    simp only [Part009A.dropToBrace] at h
    by_cases hc : c = braceL
    · rw [if_pos hc] at h
      injection h with h'
      rw [← h']
      exact hx
    · rw [if_neg hc] at h
      simp only [List.contains_cons, Bool.or_eq_false_iff] at hx
      exact ih suf h hx.2

theorem findBalancedObject_no_close (s : String) (h : s.data.contains braceR = false) :
    Part009A.findBalancedObject s = none := by
  unfold Part009A.findBalancedObject
  cases hd : Part009A.dropToBrace s.data with
  | none => rfl
  | some suf => exact fbLoop_no_close suf 0 [] (dropToBrace_some_contains braceR s.data suf hd h)

/-- C4 (amended): `extractJsonSafe` returns the parse of `s` when `s`
is valid JSON; its second attempt is inert on fenced input — because of
the `s.split("\n", 1)[1]` transcription, `stripFences` returns `""` for
every input that trims to a string starting with a code fence, so
fenced content is only ever recovered through the balanced-brace
extraction; `extractJsonSafe` returns null exactly when `s` is empty or
all of direct parse, parse of the (possibly empty) fence-stripped
string, and parse of the balanced-brace substring fail; and
`findBalancedObject` returns null when `s` has no opening brace or the
braces never balance (in particular when there is no closing brace). -/
theorem c4_extractJsonSafe_behaviour :
    ∀ (parse : String → Option J) (s : String),
      (s ≠ "" → ∀ v, parse s = some v → Part009A.extractJsonSafe parse s = some v) ∧
      (jsStartsWith (jsTrim s) "```" = true → Part009A.stripFences s = "") ∧
      (Part009A.extractJsonSafe parse s = none ↔
        (s = "" ∨
          (parse s = none ∧
           (Part009A.stripFences s = "" ∨ parse (Part009A.stripFences s) = none) ∧
           (∀ t, Part009A.findBalancedObject s = some t → parse t = none)))) ∧
      (s.data.contains braceL = false → Part009A.findBalancedObject s = none) ∧
      (s.data.contains braceR = false → Part009A.findBalancedObject s = none) := by
  intro parse s
  refine ⟨?_, stripFences_of_fenced s, ?_, ?_, findBalancedObject_no_close s⟩
  · intro hne v hv
    simp [Part009A.extractJsonSafe, hne, hv]
  · by_cases hempty : s = ""
    · simp [Part009A.extractJsonSafe, hempty]
    · cases hp : parse s with
      | some v => simp [Part009A.extractJsonSafe, hempty, hp]
      | none =>
        by_cases hsf : Part009A.stripFences s = ""
        · cases hfb : Part009A.findBalancedObject s with
          | none => simp [Part009A.extractJsonSafe, hempty, hp, hsf, hfb]
          | some inner =>
            simp only [Part009A.extractJsonSafe, hempty, hp, hsf, hfb, if_neg hempty, if_true]
            cases hpi : parse inner <;>
              simp [Part009A.extractJsonSafe, hempty, hp, hsf, hfb, hpi]
        · cases hps : parse (Part009A.stripFences s) with
          | some v =>
            simp [Part009A.extractJsonSafe, hempty, hp, hsf, hps]
          | none =>
            cases hfb : Part009A.findBalancedObject s with
            | none => simp [Part009A.extractJsonSafe, hempty, hp, hsf, hps, hfb]
            | some inner =>
              cases hpi : parse inner <;>
                simp [Part009A.extractJsonSafe, hempty, hp, hsf, hps, hfb, hpi]
  · intro h
    unfold Part009A.findBalancedObject
    rw [dropToBrace_eq_none s.data h]

/-- A fenced model reply: a JSON object (containing a brace inside a
string) wrapped in code fences. -/
def c4FencedInput : String := "```\n\x7b\"a\":\"\x7d\"\x7d\n```"

/-- `c4FencedInput` with its code fences removed — the string the
claim's second salvage attempt would parse. -/
def c4FenceStripped : String := "\x7b\"a\":\"\x7d\"\x7d"

/-- C4 counterexample: the fenced reply is not valid JSON, its
fence-stripped form parses to an object, yet `extractJsonSafe` returns
null on it — `stripFences` yields `""` (the `split("\n", 1)[1]` bug)
and the balanced-brace scan stops at the `}` inside the string literal,
producing an unparseable slice — refuting the claim that the object
parsed from the fence-stripped input is returned. -/
theorem c4_counterexample :
    jsonParse c4FencedInput = none ∧
    jsonParse c4FenceStripped = some (J.obj [("a", J.str "\x7d")]) ∧
    Part009A.stripFences c4FencedInput = "" ∧
    Part009A.findBalancedObject c4FencedInput = some "\x7b\"a\":\"\x7d" ∧
    Part009A.extractJsonSafe jsonParse c4FencedInput = none :=
  ⟨rfl, rfl, rfl, rfl, rfl⟩

/-- C4 witness: the amended theorem applied at the concrete parser — a
valid JSON input is returned by the first attempt, and an input with no
brace yields no balanced object. -/
theorem c4_extractJsonSafe_witness :
    Part009A.extractJsonSafe jsonParse "\x7b\"k\":2\x7d" = some (J.obj [("k", J.num 2)]) ∧
    Part009A.findBalancedObject "nope" = none ∧
    Part009A.stripFences "```json\nnot json\n```" = "" :=
  ⟨(c4_extractJsonSafe_behaviour jsonParse "\x7b\"k\":2\x7d").1 (by decide) _ rfl,
   (c4_extractJsonSafe_behaviour jsonParse "nope").2.2.2.1 rfl,
   (c4_extractJsonSafe_behaviour jsonParse "```json\nnot json\n```").2.1 rfl⟩
